import Mathlib

/-!
# ImageSlider (src/app.js)

A shallow embedding of the `ImageSlider` class together with the part of the
host page it talks to: the interval timers (`setInterval` / `clearInterval`)
and the event-listener registry (`addEventListener` / `removeEventListener`).

JavaScript numbers are modelled by `Num`: an integer, or `none` for `NaN`
(which `x % 0` produces).  Fractional values are outside the model.
-/

namespace ImageSlider

/-! ## Numbers -/

/-- An integer-valued JavaScript number; `none` stands for `NaN`. -/
abbrev Num := Option Int

/-- The sum `a + b`. -/
def numAdd (a b : Num) : Num :=
  match a, b with
  | some x, some y => some (x + y)
  | _, _ => none

/-- The difference `a - b`. -/
def numSub (a b : Num) : Num :=
  match a, b with
  | some x, some y => some (x - y)
  | _, _ => none

/-- The product `a * b`. -/
def numMul (a b : Num) : Num :=
  match a, b with
  | some x, some y => some (x * y)
  | _, _ => none

/-- Unary minus `-a`. -/
def numNeg (a : Num) : Num :=
  match a with
  | some x => some (-x)
  | none => none

/-- The remainder `a % b` of JavaScript: the sign follows the dividend, and a
zero divisor gives `NaN`. -/
def numRem (a b : Num) : Num :=
  match a, b with
  | some x, some y => if y = 0 then none else some (Int.tmod x y)
  | _, _ => none

/-- Strict equality `a === b` on numbers: `NaN` equals nothing. -/
def strictEq (a b : Num) : Bool :=
  match a, b with
  | some x, some y => decide (x = y)
  | _, _ => false

/-! ## Data model -/

/-- The `options` argument of the constructor; `none` is an omitted option.
A supplied `interval` is a number, so it may be `NaN` (`some none`). -/
structure Options where
  autoSlide : Option Bool
  interval : Option Num
  pauseOnHover : Option Bool
  deriving DecidableEq, Repr

/-- The field `this.config`. -/
structure Config where
  autoSlide : Bool
  interval : Int
  pauseOnHover : Bool
  deriving DecidableEq, Repr

/-- An interval timer of the host: created by `setInterval`, outstanding until
`clearInterval`.  `elapsed` is the time since it was started or last fired. -/
structure Timer where
  id : Nat
  delay : Int
  elapsed : Nat
  deriving DecidableEq, Repr

/-- The elements the slider listens on. -/
inductive Target where
  | dot (index : Nat)
  | prevBtn
  | nextBtn
  | document
  | container
  | track
  deriving DecidableEq, Repr

/-- The event types the slider listens for. -/
inductive EventType where
  | click
  | keydown
  | mouseenter
  | mouseleave
  | touchstart
  | touchend
  deriving DecidableEq, Repr

/-- The arrow functions the class passes to `addEventListener`. -/
inductive Handler where
  | dotClick (index : Nat)
  | prevClick
  | nextClick
  | keydown
  | mouseenter
  | mouseleave
  | touchstart
  | touchend
  deriving DecidableEq, Repr

/-- The part of an event object the handlers read: `e.key` and the `clientX`
of the first touch. -/
structure EventData where
  key : String
  clientX : Int
  deriving DecidableEq, Repr

/-- One registration in the host: `closure` is the identity of the function
object, which is what `removeEventListener` compares. -/
structure Listener where
  target : Target
  type : EventType
  closure : Nat
  handler : Handler
  deriving DecidableEq, Repr

/-- The slider instance and the host state it acts on. -/
structure Slider where
  totalSlides : Nat
  currentIndex : Num
  config : Config
  autoSlideTimer : Option Nat
  dots : List Bool
  translateX : Num
  startX : Int
  endX : Int
  timers : List Timer
  nextTimerId : Nat
  listeners : List Listener
  nextClosure : Nat
  deriving DecidableEq, Repr

/-! ## Host operations -/

/-- The host call `setInterval(callback, delay)`: a new outstanding timer with
a fresh id, which is returned. -/
def setInterval (s : Slider) (delay : Int) : Slider × Nat :=
  ({ s with timers := s.timers ++ [{ id := s.nextTimerId, delay := delay, elapsed := 0 }],
            nextTimerId := s.nextTimerId + 1 }, s.nextTimerId)

/-- The host call `clearInterval(id)`. -/
def clearInterval (s : Slider) (id : Nat) : Slider :=
  { s with timers := s.timers.filter (fun t => decide (t.id ≠ id)) }

/-- The host call `target.addEventListener(type, fn)` with a newly created
arrow function `fn`. -/
def addEventListener (s : Slider) (target : Target) (type : EventType) (h : Handler) : Slider :=
  { s with listeners := s.listeners ++
             [{ target := target, type := type, closure := s.nextClosure, handler := h }],
           nextClosure := s.nextClosure + 1 }

/-- The host call `target.removeEventListener(type, fn)` with a newly created
arrow function `fn`: the function object gets the next identity, and the
registrations of that very object are removed. -/
def removeEventListener (s : Slider) (target : Target) (type : EventType) : Slider :=
  { s with listeners := s.listeners.filter (fun l =>
             !(decide (l.target = target) && decide (l.type = type) &&
               decide (l.closure = s.nextClosure))),
           nextClosure := s.nextClosure + 1 }

/-! ## The class -/

/-- Method `stopAutoSlide`. -/
def stopAutoSlide (s : Slider) : Slider :=
  match s.autoSlideTimer with
  | some id =>
    if id ≠ 0 then { clearInterval s id with autoSlideTimer := none } else s
  | none => s

/-- Method `startAutoSlide`. -/
def startAutoSlide (s : Slider) : Slider :=
  let s1 := stopAutoSlide s
  let r := setInterval s1 s1.config.interval
  { r.1 with autoSlideTimer := some r.2 }

/-- Method `resetAutoSlide`. -/
def resetAutoSlide (s : Slider) : Slider :=
  if s.config.autoSlide then startAutoSlide s else s

/-- Method `updateSlider`. -/
def updateSlider (s : Slider) : Slider :=
  { s with translateX := numMul (numNeg s.currentIndex) (some 100),
           dots := s.dots.enum.map (fun p => strictEq (some (p.1 : Int)) s.currentIndex) }

/-- Method `nextSlide`. -/
def nextSlide (s : Slider) : Slider :=
  let total : Num := some (s.totalSlides : Int)
  let s1 := { s with currentIndex := numRem (numAdd s.currentIndex (some 1)) total }
  resetAutoSlide (updateSlider s1)

/-- Method `previousSlide`. -/
def previousSlide (s : Slider) : Slider :=
  let total : Num := some (s.totalSlides : Int)
  let s1 := { s with
    currentIndex := numRem (numAdd (numSub s.currentIndex (some 1)) total) total }
  resetAutoSlide (updateSlider s1)

/-- Method `goToSlide`. -/
def goToSlide (s : Slider) (index : Num) : Slider :=
  let s1 := { s with currentIndex := index }
  resetAutoSlide (updateSlider s1)

/-- Method `handleSwipe`. -/
def handleSwipe (s : Slider) (startX endX : Int) : Slider :=
  let threshold : Int := 50
  let diff := startX - endX
  if |diff| > threshold then
    if diff > 0 then nextSlide s else previousSlide s
  else s

/-- The callback of the loop in `createDots`: a new dot for slide `index`,
active when `index === 0`, with its click listener, appended to the dots
container. -/
def createDot (s : Slider) (index : Nat) : Slider :=
  let s1 := addEventListener s (Target.dot index) EventType.click (Handler.dotClick index)
  { s1 with dots := s1.dots ++ [decide (index = 0)] }

/-- Method `createDots`: one dot per slide in a dots container that starts
empty; `this.dots` is then read back from the container. -/
def createDots (s : Slider) : Slider :=
  (List.range s.totalSlides).foldl createDot { s with dots := [] }

/-- Method `addTouchSupport`. -/
def addTouchSupport (s : Slider) : Slider :=
  let s1 := { s with startX := 0, endX := 0 }
  let s2 := addEventListener s1 Target.track EventType.touchstart Handler.touchstart
  addEventListener s2 Target.track EventType.touchend Handler.touchend

/-- Method `attachEventListeners`. -/
def attachEventListeners (s : Slider) : Slider :=
  let s1 := addEventListener s Target.prevBtn EventType.click Handler.prevClick
  let s2 := addEventListener s1 Target.nextBtn EventType.click Handler.nextClick
  let s3 := addEventListener s2 Target.document EventType.keydown Handler.keydown
  let s4 :=
    if s3.config.pauseOnHover then
      addEventListener
        (addEventListener s3 Target.container EventType.mouseenter Handler.mouseenter)
        Target.container EventType.mouseleave Handler.mouseleave
    else s3
  addTouchSupport s4

/-- Method `init`. -/
def init (s : Slider) : Slider :=
  let s1 := updateSlider (attachEventListeners (createDots s))
  if s1.config.autoSlide then startAutoSlide s1 else s1

/-- The configuration the constructor derives from `options`.  In
`options.interval || 4000` the falsy values are the omitted option
(`undefined`) and, among the numbers, `0` and `NaN`; any other number is kept,
so the configured interval is never `NaN`. -/
def mkConfig (options : Options) : Config :=
  { autoSlide := decide (options.autoSlide ≠ some false),
    interval := match options.interval with
      | some (some v) => if v ≠ 0 then v else 4000
      | some none => 4000
      | none => 4000,
    pauseOnHover := decide (options.pauseOnHover ≠ some false) }

/-- The instance as the constructor leaves it before calling `init`, for a
container holding `slides` slides and an empty dots container, on a host that
has issued no timer yet (timer ids are positive). -/
def beforeInit (slides : Nat) (options : Options) : Slider :=
  { totalSlides := slides,
    currentIndex := some 0,
    config := mkConfig options,
    autoSlideTimer := none,
    dots := [],
    translateX := none,
    startX := 0,
    endX := 0,
    timers := [],
    nextTimerId := 1,
    listeners := [],
    nextClosure := 0 }

/-- The constructor. -/
def new (slides : Nat) (options : Options) : Slider :=
  init (beforeInit slides options)

/-- Method `destroy`. -/
def destroy (s : Slider) : Slider :=
  let s1 := stopAutoSlide s
  let s2 := removeEventListener s1 Target.prevBtn EventType.click
  removeEventListener s2 Target.nextBtn EventType.click

/-! ## Events -/

/-- The body of a registered arrow function, run on an event. -/
def runHandler (s : Slider) (h : Handler) (e : EventData) : Slider :=
  match h with
  | Handler.dotClick index => goToSlide s (some (index : Int))
  | Handler.prevClick => previousSlide s
  | Handler.nextClick => nextSlide s
  | Handler.keydown =>
    let s1 := if e.key = "ArrowLeft" then previousSlide s else s
    if e.key = "ArrowRight" then nextSlide s1 else s1
  | Handler.mouseenter => stopAutoSlide s
  | Handler.mouseleave => if s.config.autoSlide then startAutoSlide s else s
  | Handler.touchstart => { s with startX := e.clientX }
  | Handler.touchend =>
    let s1 := { s with endX := e.clientX }
    handleSwipe s1 s1.startX s1.endX

/-- The host delivers an event of type `type` at `target`: the listeners
registered for it run in registration order. -/
def dispatch (s : Slider) (target : Target) (type : EventType) (e : EventData) : Slider :=
  (s.listeners.filter (fun l => decide (l.target = target) && decide (l.type = type))).foldl
    (fun acc l => runHandler acc l.handler e) s

/-- The host fires timer `id`: nothing happens unless it is outstanding;
otherwise its countdown restarts and its callback, `this.nextSlide()`, runs. -/
def tick (s : Slider) (id : Nat) : Slider :=
  if s.timers.any (fun t => decide (t.id = id)) then
    let restart := fun (t : Timer) => if t.id = id then { t with elapsed := 0 } else t
    nextSlide { s with timers := s.timers.map restart }
  else s

/-- Time `dt` passes in the host. -/
def elapse (s : Slider) (dt : Nat) : Slider :=
  { s with timers := s.timers.map (fun t => { t with elapsed := t.elapsed + dt }) }

/-- What can happen to a slider: a call of a public method, or a host event. -/
inductive Action where
  | nextSlide
  | previousSlide
  | goToSlide (index : Num)
  | startAutoSlide
  | stopAutoSlide
  | destroy
  | dispatch (target : Target) (type : EventType) (e : EventData)
  | tick (id : Nat)
  | elapse (dt : Nat)
  deriving DecidableEq, Repr

/-- One action. -/
def step (s : Slider) (a : Action) : Slider :=
  match a with
  | Action.nextSlide => nextSlide s
  | Action.previousSlide => previousSlide s
  | Action.goToSlide index => goToSlide s index
  | Action.startAutoSlide => startAutoSlide s
  | Action.stopAutoSlide => stopAutoSlide s
  | Action.destroy => destroy s
  | Action.dispatch target type e => dispatch s target type e
  | Action.tick id => tick s id
  | Action.elapse dt => elapse s dt

/-- A sequence of actions, in order. -/
def run (s : Slider) (as : List Action) : Slider :=
  as.foldl step s

/-- The states after each action of a sequence, in order. -/
def trace (s : Slider) : List Action → List Slider
  | [] => []
  | a :: as => step s a :: trace (step s a) as

/-! ## Properties -/

/-- The index is valid: an integer in `[0, N - 1]`. -/
def IndexValid (s : Slider) : Prop :=
  ∃ i : Int, s.currentIndex = some i ∧ 0 ≤ i ∧ i ≤ (s.totalSlides : Int) - 1

/-- A listener as `createDots` registers them: a click on dot `k` goes to slide `k`. -/
def isDotListener (l : Listener) : Prop :=
  ∃ k, l.target = Target.dot k ∧ l.type = EventType.click ∧ l.handler = Handler.dotClick k

/-- The constructor called without options. -/
def noOptions : Options :=
  { autoSlide := none, interval := none, pauseOnHover := none }

/-- The constructor called with `interval: 0` and nothing else. -/
def zeroIntervalOptions : Options :=
  { autoSlide := none, interval := some (some 0), pauseOnHover := none }

/-- The constructor called with `interval: NaN` and nothing else. -/
def nanIntervalOptions : Options :=
  { autoSlide := none, interval := some none, pauseOnHover := none }

/-- The index is valid and exactly one dot is active, the one at the index;
there is one dot per slide. -/
def NavInvariant (s : Slider) : Prop :=
  ∃ i : Nat, i < s.totalSlides ∧ s.currentIndex = some (i : Int) ∧
    s.dots.length = s.totalSlides ∧ ∀ j : Nat, s.dots[j]? = some true ↔ j = i

/-- A call of a navigation method on a slider with `N` slides, `goToSlide` with
an index in `[0, N - 1]`. -/
def navInRange (N : Nat) : Action → Bool
  | Action.nextSlide => true
  | Action.previousSlide => true
  | Action.goToSlide (some i) => decide (0 ≤ i) && decide (i < (N : Int))
  | _ => false

/-- The constructor called with `autoSlide: false, interval: 5000`. -/
def manualOptions : Options :=
  { autoSlide := some false, interval := some (some 5000), pauseOnHover := none }

/-- The timer discipline: the host has issued only positive ids below
`nextTimerId`, and either no timer is outstanding and the handle is null, or
exactly one is and the handle is its id. -/
def TimerInv (s : Slider) : Prop :=
  1 ≤ s.nextTimerId ∧
  ((s.autoSlideTimer = none ∧ s.timers = []) ∨
   ∃ t : Timer, s.autoSlideTimer = some t.id ∧ s.timers = [t] ∧ 1 ≤ t.id ∧
     t.id < s.nextTimerId)

/-- An event object whose fields the handler in question does not read. -/
def noData : EventData :=
  { key := "", clientX := 0 }

/-- A click on the next button. -/
def clickNext : Action :=
  Action.dispatch Target.nextBtn EventType.click noData

/-- The pointer enters the container. -/
def hoverEnter : Action :=
  Action.dispatch Target.container EventType.mouseenter noData

/-- The pointer leaves the container. -/
def hoverLeave : Action :=
  Action.dispatch Target.container EventType.mouseleave noData

/-- A listener as the class registers them: the handler is the one the class
attaches at that target for that event type. -/
def wired (l : Listener) : Bool :=
  match l.target, l.type, l.handler with
  | Target.dot i, EventType.click, Handler.dotClick j => decide (i = j)
  | Target.prevBtn, EventType.click, Handler.prevClick => true
  | Target.nextBtn, EventType.click, Handler.nextClick => true
  | Target.document, EventType.keydown, Handler.keydown => true
  | Target.container, EventType.mouseenter, Handler.mouseenter => true
  | Target.container, EventType.mouseleave, Handler.mouseleave => true
  | Target.track, EventType.touchstart, Handler.touchstart => true
  | Target.track, EventType.touchend, Handler.touchend => true
  | _, _, _ => false

/-- Every registered listener is one of the class. -/
def Wired (s : Slider) : Prop :=
  ∀ l ∈ s.listeners, wired l = true

/-- The listeners registered at the container for events of type `type`. -/
def containerListeners (s : Slider) (type : EventType) : List Listener :=
  s.listeners.filter (fun l => decide (l.target = Target.container) && decide (l.type = type))

/-- The container has exactly one `mouseenter` and one `mouseleave` listener,
the two of `attachEventListeners`. -/
def HoverWired (s : Slider) : Prop :=
  (∃ c, containerListeners s EventType.mouseenter
    = [{ target := Target.container, type := EventType.mouseenter, closure := c,
         handler := Handler.mouseenter }]) ∧
  (∃ c, containerListeners s EventType.mouseleave
    = [{ target := Target.container, type := EventType.mouseleave, closure := c,
         handler := Handler.mouseleave }])

/-- No timer is outstanding and the handle is null. -/
def Paused (s : Slider) : Prop :=
  s.autoSlideTimer = none ∧ s.timers = []

/-- A registered handler that, run in state `s` on the event `e`, neither
navigates nor starts the timer: the `keydown` handler on a key other than the
two arrows, the `mouseenter` handler, the `touchstart` handler, and the
`touchend` handler when the touch ends within 50 of the touch start recorded in
`s`.  The click handlers navigate and the `mouseleave` handler starts the
timer. -/
def quietHandler (s : Slider) (h : Handler) (e : EventData) : Bool :=
  match h with
  | Handler.dotClick _ => false
  | Handler.prevClick => false
  | Handler.nextClick => false
  | Handler.keydown => decide (e.key ≠ "ArrowLeft") && decide (e.key ≠ "ArrowRight")
  | Handler.mouseenter => true
  | Handler.mouseleave => false
  | Handler.touchstart => true
  | Handler.touchend => decide (|s.startX - e.clientX| ≤ 50)

/-- An action that, in state `s`, neither navigates, nor calls `startAutoSlide`,
nor is the pointer leaving the container: `stopAutoSlide()`, `destroy()`, time
passing, the host firing a timer id, and any event all of whose listeners
registered in `s` are quiet handlers, which includes every event nothing listens
for. -/
def quiet (s : Slider) : Action → Bool
  | Action.nextSlide => false
  | Action.previousSlide => false
  | Action.goToSlide _ => false
  | Action.startAutoSlide => false
  | Action.stopAutoSlide => true
  | Action.destroy => true
  | Action.tick _ => true
  | Action.elapse _ => true
  | Action.dispatch target type e =>
    (s.listeners.filter
      (fun l => decide (l.target = target) && decide (l.type = type))).all
      (fun l => quietHandler s l.handler e)

/-- Every action of the sequence is quiet in the state it is applied to. -/
def quietFrom (s : Slider) : List Action → Bool
  | [] => true
  | a :: as => quiet s a && quietFrom (step s a) as

/-! ## Frame lemmas: what the timer methods leave alone -/

@[simp]
theorem stopAutoSlide_totalSlides (s : Slider) : (stopAutoSlide s).totalSlides = s.totalSlides := by
  unfold stopAutoSlide; split <;> [split; skip] <;> rfl

@[simp]
theorem stopAutoSlide_currentIndex (s : Slider) : (stopAutoSlide s).currentIndex = s.currentIndex := by
  unfold stopAutoSlide; split <;> [split; skip] <;> rfl

@[simp]
theorem stopAutoSlide_config (s : Slider) : (stopAutoSlide s).config = s.config := by
  unfold stopAutoSlide; split <;> [split; skip] <;> rfl

@[simp]
theorem stopAutoSlide_dots (s : Slider) : (stopAutoSlide s).dots = s.dots := by
  unfold stopAutoSlide; split <;> [split; skip] <;> rfl

@[simp]
theorem stopAutoSlide_translateX (s : Slider) : (stopAutoSlide s).translateX = s.translateX := by
  unfold stopAutoSlide; split <;> [split; skip] <;> rfl

@[simp]
theorem stopAutoSlide_startX (s : Slider) : (stopAutoSlide s).startX = s.startX := by
  unfold stopAutoSlide; split <;> [split; skip] <;> rfl

@[simp]
theorem stopAutoSlide_endX (s : Slider) : (stopAutoSlide s).endX = s.endX := by
  unfold stopAutoSlide; split <;> [split; skip] <;> rfl

@[simp]
theorem stopAutoSlide_listeners (s : Slider) : (stopAutoSlide s).listeners = s.listeners := by
  unfold stopAutoSlide; split <;> [split; skip] <;> rfl

@[simp]
theorem stopAutoSlide_nextClosure (s : Slider) : (stopAutoSlide s).nextClosure = s.nextClosure := by
  unfold stopAutoSlide; split <;> [split; skip] <;> rfl

@[simp]
theorem startAutoSlide_totalSlides (s : Slider) : (startAutoSlide s).totalSlides = s.totalSlides := by
  simp [startAutoSlide, setInterval]

@[simp]
theorem startAutoSlide_currentIndex (s : Slider) : (startAutoSlide s).currentIndex = s.currentIndex := by
  simp [startAutoSlide, setInterval]

@[simp]
theorem startAutoSlide_config (s : Slider) : (startAutoSlide s).config = s.config := by
  simp [startAutoSlide, setInterval]

@[simp]
theorem startAutoSlide_dots (s : Slider) : (startAutoSlide s).dots = s.dots := by
  simp [startAutoSlide, setInterval]

@[simp]
theorem startAutoSlide_translateX (s : Slider) : (startAutoSlide s).translateX = s.translateX := by
  simp [startAutoSlide, setInterval]

@[simp]
theorem startAutoSlide_startX (s : Slider) : (startAutoSlide s).startX = s.startX := by
  simp [startAutoSlide, setInterval]

@[simp]
theorem startAutoSlide_endX (s : Slider) : (startAutoSlide s).endX = s.endX := by
  simp [startAutoSlide, setInterval]

@[simp]
theorem startAutoSlide_listeners (s : Slider) : (startAutoSlide s).listeners = s.listeners := by
  simp [startAutoSlide, setInterval]

@[simp]
theorem startAutoSlide_nextClosure (s : Slider) : (startAutoSlide s).nextClosure = s.nextClosure := by
  simp [startAutoSlide, setInterval]

@[simp]
theorem resetAutoSlide_totalSlides (s : Slider) : (resetAutoSlide s).totalSlides = s.totalSlides := by
  unfold resetAutoSlide; split <;> simp

@[simp]
theorem resetAutoSlide_currentIndex (s : Slider) : (resetAutoSlide s).currentIndex = s.currentIndex := by
  unfold resetAutoSlide; split <;> simp

@[simp]
theorem resetAutoSlide_config (s : Slider) : (resetAutoSlide s).config = s.config := by
  unfold resetAutoSlide; split <;> simp

@[simp]
theorem resetAutoSlide_dots (s : Slider) : (resetAutoSlide s).dots = s.dots := by
  unfold resetAutoSlide; split <;> simp

@[simp]
theorem resetAutoSlide_translateX (s : Slider) : (resetAutoSlide s).translateX = s.translateX := by
  unfold resetAutoSlide; split <;> simp

@[simp]
theorem resetAutoSlide_startX (s : Slider) : (resetAutoSlide s).startX = s.startX := by
  unfold resetAutoSlide; split <;> simp

@[simp]
theorem resetAutoSlide_endX (s : Slider) : (resetAutoSlide s).endX = s.endX := by
  unfold resetAutoSlide; split <;> simp

@[simp]
theorem resetAutoSlide_listeners (s : Slider) : (resetAutoSlide s).listeners = s.listeners := by
  unfold resetAutoSlide; split <;> simp

@[simp]
theorem resetAutoSlide_nextClosure (s : Slider) : (resetAutoSlide s).nextClosure = s.nextClosure := by
  unfold resetAutoSlide; split <;> simp



/-! ## Navigation: the index -/

theorem nextSlide_currentIndex (s : Slider) :
    (nextSlide s).currentIndex =
      numRem (numAdd s.currentIndex (some 1)) (some (s.totalSlides : Int)) := by
  simp [nextSlide, updateSlider]

theorem previousSlide_currentIndex (s : Slider) :
    (previousSlide s).currentIndex =
      numRem (numAdd (numSub s.currentIndex (some 1)) (some (s.totalSlides : Int)))
        (some (s.totalSlides : Int)) := by
  simp [previousSlide, updateSlider]

@[simp]
theorem goToSlide_currentIndex (s : Slider) (index : Num) :
    (goToSlide s index).currentIndex = index := by
  simp [goToSlide, updateSlider]

@[simp]
theorem nextSlide_totalSlides (s : Slider) : (nextSlide s).totalSlides = s.totalSlides := by
  simp [nextSlide, updateSlider]

@[simp]
theorem previousSlide_totalSlides (s : Slider) :
    (previousSlide s).totalSlides = s.totalSlides := by
  simp [previousSlide, updateSlider]

@[simp]
theorem goToSlide_totalSlides (s : Slider) (index : Num) :
    (goToSlide s index).totalSlides = s.totalSlides := by
  simp [goToSlide, updateSlider]

/-- On a non-negative dividend and a positive divisor the remainder of
JavaScript is the mathematical one. -/
theorem numRem_of_nonneg (x : Int) (n : Nat) (hx : 0 ≤ x) (hn : 1 ≤ n) :
    numRem (some x) (some (n : Int)) = some (x % (n : Int)) := by
  have hn0 : (n : Int) ≠ 0 := by omega
  simp [numRem, hn0, Int.tmod_eq_emod hx (Int.ofNat_nonneg n)]

theorem nextSlide_index_of_valid (s : Slider) (i : Int) (hN : 1 ≤ s.totalSlides)
    (hcur : s.currentIndex = some i) (h0 : 0 ≤ i) :
    (nextSlide s).currentIndex = some ((i + 1) % (s.totalSlides : Int)) := by
  rw [nextSlide_currentIndex, hcur]
  exact numRem_of_nonneg (i + 1) s.totalSlides (by omega) hN

theorem previousSlide_index_of_valid (s : Slider) (i : Int) (hN : 1 ≤ s.totalSlides)
    (hcur : s.currentIndex = some i) (h0 : 0 ≤ i) :
    (previousSlide s).currentIndex = some ((i - 1 + (s.totalSlides : Int)) % (s.totalSlides : Int)) := by
  rw [previousSlide_currentIndex, hcur]
  exact numRem_of_nonneg (i - 1 + (s.totalSlides : Int)) s.totalSlides (by omega) hN

theorem nextSlide_indexValid (s : Slider) (hN : 1 ≤ s.totalSlides) (h : IndexValid s) :
    IndexValid (nextSlide s) := by
  obtain ⟨i, hcur, h0, _⟩ := h
  have hpos : (0 : Int) < (s.totalSlides : Int) := by omega
  refine ⟨(i + 1) % (s.totalSlides : Int), nextSlide_index_of_valid s i hN hcur h0, ?_, ?_⟩
  · exact Int.emod_nonneg _ (by omega)
  · have := Int.emod_lt_of_pos (i + 1) hpos
    simp only [nextSlide_totalSlides]; omega

theorem previousSlide_indexValid (s : Slider) (hN : 1 ≤ s.totalSlides) (h : IndexValid s) :
    IndexValid (previousSlide s) := by
  obtain ⟨i, hcur, h0, _⟩ := h
  have hpos : (0 : Int) < (s.totalSlides : Int) := by omega
  refine ⟨(i - 1 + (s.totalSlides : Int)) % (s.totalSlides : Int),
    previousSlide_index_of_valid s i hN hcur h0, ?_, ?_⟩
  · exact Int.emod_nonneg _ (by omega)
  · have := Int.emod_lt_of_pos (i - 1 + (s.totalSlides : Int)) hpos
    simp only [previousSlide_totalSlides]; omega

/-! ## Construction -/

theorem addEventListener_fields (s : Slider) (target : Target) (type : EventType) (h : Handler) :
    (addEventListener s target type h).totalSlides = s.totalSlides ∧
    (addEventListener s target type h).currentIndex = s.currentIndex ∧
    (addEventListener s target type h).config = s.config ∧
    (addEventListener s target type h).autoSlideTimer = s.autoSlideTimer ∧
    (addEventListener s target type h).timers = s.timers ∧
    (addEventListener s target type h).nextTimerId = s.nextTimerId ∧
    (addEventListener s target type h).dots = s.dots :=
  ⟨rfl, rfl, rfl, rfl, rfl, rfl, rfl⟩

/-- What the loop of `createDots` does, over the indices `l`, to a slider
whose dots so far are `acc.dots`. -/
theorem createDots_loop (l : List Nat) (acc : Slider) :
    (l.foldl createDot acc).totalSlides = acc.totalSlides ∧
    (l.foldl createDot acc).currentIndex = acc.currentIndex ∧
    (l.foldl createDot acc).config = acc.config ∧
    (l.foldl createDot acc).autoSlideTimer = acc.autoSlideTimer ∧
    (l.foldl createDot acc).timers = acc.timers ∧
    (l.foldl createDot acc).nextTimerId = acc.nextTimerId ∧
    (l.foldl createDot acc).dots = acc.dots ++ l.map (fun index => decide (index = 0)) ∧
    ∀ x ∈ (l.foldl createDot acc).listeners, x ∈ acc.listeners ∨ isDotListener x := by
  induction l generalizing acc with
  | nil => exact ⟨rfl, rfl, rfl, rfl, rfl, rfl, by simp, fun x hx => Or.inl hx⟩
  | cons a l ih =>
    simp only [List.foldl_cons]
    obtain ⟨h1, h2, h3, h4, h5, h6, h7, h8⟩ := ih (createDot acc a)
    refine ⟨h1, h2, h3, h4, h5, h6, ?_, ?_⟩
    · rw [h7]; simp [createDot, addEventListener]
    · intro x hx
      rcases h8 x hx with h | h
      · simp only [createDot, addEventListener, List.mem_append, List.mem_singleton] at h
        rcases h with h | h
        · exact Or.inl h
        · exact Or.inr ⟨a, by rw [h], by rw [h], by rw [h]⟩
      · exact Or.inr h

theorem attachEventListeners_fields (s : Slider) :
    (attachEventListeners s).totalSlides = s.totalSlides ∧
    (attachEventListeners s).currentIndex = s.currentIndex ∧
    (attachEventListeners s).config = s.config ∧
    (attachEventListeners s).autoSlideTimer = s.autoSlideTimer ∧
    (attachEventListeners s).timers = s.timers ∧
    (attachEventListeners s).nextTimerId = s.nextTimerId ∧
    (attachEventListeners s).dots = s.dots := by
  unfold attachEventListeners addTouchSupport
  simp only [addEventListener]
  split <;> exact ⟨rfl, rfl, rfl, rfl, rfl, rfl, rfl⟩

theorem init_fields (s : Slider) :
    (init s).totalSlides = s.totalSlides ∧
    (init s).currentIndex = s.currentIndex ∧
    (init s).config = s.config := by
  obtain ⟨a1, a2, a3, _⟩ := attachEventListeners_fields (createDots s)
  have hc := createDots_loop (List.range s.totalSlides) { s with dots := [] }
  obtain ⟨c1, c2, c3, _⟩ := hc
  have e1 : (updateSlider (attachEventListeners (createDots s))).totalSlides = s.totalSlides := by
    show (attachEventListeners (createDots s)).totalSlides = _
    rw [a1]; exact c1
  have e2 : (updateSlider (attachEventListeners (createDots s))).currentIndex
      = s.currentIndex := by
    show (attachEventListeners (createDots s)).currentIndex = _
    rw [a2]; exact c2
  have e3 : (updateSlider (attachEventListeners (createDots s))).config = s.config := by
    show (attachEventListeners (createDots s)).config = _
    rw [a3]; exact c3
  unfold init
  simp only []
  split
  · simp only [startAutoSlide_totalSlides, startAutoSlide_currentIndex, startAutoSlide_config]
    exact ⟨e1, e2, e3⟩
  · exact ⟨e1, e2, e3⟩

@[simp]
theorem new_totalSlides (N : Nat) (options : Options) : (new N options).totalSlides = N :=
  (init_fields _).1

@[simp]
theorem new_currentIndex (N : Nat) (options : Options) :
    (new N options).currentIndex = some 0 :=
  (init_fields _).2.1

@[simp]
theorem new_config (N : Nat) (options : Options) :
    (new N options).config = mkConfig options :=
  (init_fields _).2.2

/-! ## Rendering: the dots -/

@[simp]
theorem updateSlider_dots_length (s : Slider) :
    (updateSlider s).dots.length = s.dots.length := by
  simp [updateSlider]

theorem updateSlider_dots_getElem? (s : Slider) (j : Nat) (hj : j < s.dots.length) :
    (updateSlider s).dots[j]? = some (strictEq (some (j : Int)) s.currentIndex) := by
  simp [updateSlider, List.getElem?_enum, List.getElem?_eq_getElem hj]

theorem goToSlide_dots (s : Slider) (index : Num) :
    (goToSlide s index).dots = (updateSlider { s with currentIndex := index }).dots := by
  simp [goToSlide]

/-! ## Sequences of `nextSlide` / `previousSlide` -/

theorem trace_next_previous (as : List Action)
    (has : ∀ a ∈ as, a = Action.nextSlide ∨ a = Action.previousSlide) (s : Slider)
    (hN : 1 ≤ s.totalSlides) (h : IndexValid s) :
    ∀ x ∈ trace s as, IndexValid x ∧ x.totalSlides = s.totalSlides := by
  induction as generalizing s with
  | nil => intro x hx; simp [trace] at hx
  | cons a as ih =>
    have hstep : IndexValid (step s a) ∧ (step s a).totalSlides = s.totalSlides := by
      rcases has a (List.mem_cons_self a as) with ha | ha
      · subst ha; exact ⟨nextSlide_indexValid s hN h, nextSlide_totalSlides s⟩
      · subst ha; exact ⟨previousSlide_indexValid s hN h, previousSlide_totalSlides s⟩
    intro x hx
    simp only [trace, List.mem_cons] at hx
    rcases hx with hx | hx
    · rw [hx]; exact hstep
    · have := ih (fun b hb => has b (List.mem_cons_of_mem a hb)) (step s a)
        (by rw [hstep.2]; exact hN) hstep.1 x hx
      exact ⟨this.1, by rw [this.2, hstep.2]⟩

/-! ## Claims about navigation -/

/-- C1: for a slider with N >= 1 slides whose index is i, 0 <= i < N, `nextSlide`
sets the index to (i + 1) mod N and `previousSlide` sets it to (i - 1 + N) mod N,
with the non-negative remainder; so N - 1 advances to 0 and 0 retreats to N - 1. -/
theorem nextSlide_previousSlide_wrap (s : Slider) (i : Int) (hN : 1 ≤ s.totalSlides)
    (hcur : s.currentIndex = some i) (h0 : 0 ≤ i) (hi : i < (s.totalSlides : Int)) :
    (nextSlide s).currentIndex = some ((i + 1) % (s.totalSlides : Int)) ∧
    (previousSlide s).currentIndex
      = some ((i - 1 + (s.totalSlides : Int)) % (s.totalSlides : Int)) ∧
    (i = (s.totalSlides : Int) - 1 → (nextSlide s).currentIndex = some 0) ∧
    (i = 0 → (previousSlide s).currentIndex = some ((s.totalSlides : Int) - 1)) ∧
    (i < (s.totalSlides : Int) - 1 → (nextSlide s).currentIndex = some (i + 1)) ∧
    (0 < i → (previousSlide s).currentIndex = some (i - 1)) := by
  have hn := nextSlide_index_of_valid s i hN hcur h0
  have hp := previousSlide_index_of_valid s i hN hcur h0
  refine ⟨hn, hp, ?_, ?_, ?_, ?_⟩
  rotate_left 2
  · intro hlt
    rw [hn]
    congr 1
    exact Int.emod_eq_of_lt (by omega) (by omega)
  · intro hgt
    rw [hp]
    congr 1
    have : i - 1 + (s.totalSlides : Int) = (i - 1) + (s.totalSlides : Int) * 1 := by ring
    rw [this, Int.add_mul_emod_self_left]
    exact Int.emod_eq_of_lt (by omega) (by omega)
  · intro hlast
    rw [hn, hlast]; simp
  · intro hfirst
    rw [hp, hfirst]
    congr 1
    have : (0 - 1 + (s.totalSlides : Int)) = (s.totalSlides : Int) - 1 := by ring
    rw [this]
    exact Int.emod_eq_of_lt (by omega) (by omega)

/-- Witness of C1: three slides, index 0. -/
theorem nextSlide_previousSlide_wrap_witness :
    (1 ≤ (new 3 noOptions).totalSlides ∧ (new 3 noOptions).currentIndex = some 0 ∧
      (0 : Int) ≤ 0 ∧ (0 : Int) < ((new 3 noOptions).totalSlides : Int)) ∧
    (nextSlide (new 3 noOptions)).currentIndex = some 1 ∧
    (previousSlide (new 3 noOptions)).currentIndex = some 2 :=
  ⟨⟨by decide, by decide, by decide, by decide⟩,
   (nextSlide_previousSlide_wrap (new 3 noOptions) 0 (by decide) (by decide) (by decide)
      (by decide)).1,
   (nextSlide_previousSlide_wrap (new 3 noOptions) 0 (by decide) (by decide) (by decide)
      (by decide)).2.1⟩

/-- C2: for N >= 1 slides and every finite sequence of `nextSlide` and
`previousSlide` calls from the constructed slider (index 0), the index is an
integer in [0, N - 1] after every call; with N = 3, `previousSlide` from 0 gives
2 and `nextSlide` from 2 gives 0. -/
theorem index_in_range_after_every_call (N : Nat) (options : Options) (as : List Action)
    (hN : 1 ≤ N) (has : ∀ a ∈ as, a = Action.nextSlide ∨ a = Action.previousSlide) :
    (new N options).currentIndex = some 0 ∧
    (∀ x ∈ trace (new N options) as,
      ∃ i : Int, x.currentIndex = some i ∧ 0 ≤ i ∧ i ≤ (N : Int) - 1) ∧
    (∀ s : Slider, s.totalSlides = 3 → s.currentIndex = some 0 →
      (previousSlide s).currentIndex = some 2) ∧
    (∀ s : Slider, s.totalSlides = 3 → s.currentIndex = some 2 →
      (nextSlide s).currentIndex = some 0) := by
  refine ⟨new_currentIndex N options, ?_, ?_, ?_⟩
  · intro x hx
    have hinit : IndexValid (new N options) :=
      ⟨0, new_currentIndex N options, le_refl 0, by rw [new_totalSlides]; omega⟩
    have := trace_next_previous as has (new N options) (by rw [new_totalSlides]; exact hN)
      hinit x hx
    obtain ⟨⟨i, h1, h2, h3⟩, h4⟩ := this
    rw [h4, new_totalSlides] at h3
    exact ⟨i, h1, h2, h3⟩
  · intro s h3 hcur
    rw [previousSlide_index_of_valid s 0 (by omega) hcur (le_refl 0), h3]; rfl
  · intro s h3 hcur
    rw [nextSlide_index_of_valid s 2 (by omega) hcur (by decide), h3]; rfl

/-- Witness of C2: three slides, back once and forward once. -/
theorem index_in_range_after_every_call_witness :
    (1 ≤ 3 ∧ ∀ a ∈ [Action.previousSlide, Action.nextSlide],
      a = Action.nextSlide ∨ a = Action.previousSlide) ∧
    (∀ x ∈ trace (new 3 noOptions) [Action.previousSlide, Action.nextSlide],
      ∃ i : Int, x.currentIndex = some i ∧ 0 ≤ i ∧ i ≤ ((3 : Nat) : Int) - 1) :=
  ⟨⟨by decide, by decide⟩,
   (index_in_range_after_every_call 3 noOptions [Action.previousSlide, Action.nextSlide]
      (by decide) (by decide)).2.1⟩

/-- C3: for N >= 1 slides, 0 <= i < N and every prior state with one dot per
slide, `goToSlide(i)` leaves the index equal to i, and after its render the dot
at position i is active and every dot at a position j != i is not. -/
theorem goToSlide_sets_index_and_dots (s : Slider) (i : Int)
    (hd : s.dots.length = s.totalSlides) (h0 : 0 ≤ i) (hi : i < (s.totalSlides : Int)) :
    (goToSlide s (some i)).currentIndex = some i ∧
    (goToSlide s (some i)).dots.length = s.totalSlides ∧
    (goToSlide s (some i)).dots[i.toNat]? = some true ∧
    ∀ j : Nat, j < s.totalSlides → (j : Int) ≠ i →
      (goToSlide s (some i)).dots[j]? = some false := by
  refine ⟨goToSlide_currentIndex s (some i), ?_, ?_, ?_⟩
  · rw [goToSlide_dots, updateSlider_dots_length]; exact hd
  · rw [goToSlide_dots, updateSlider_dots_getElem? _ _ (by show i.toNat < s.dots.length; omega)]
    simp [strictEq, Int.toNat_of_nonneg h0]
  · intro j hj hne
    rw [goToSlide_dots, updateSlider_dots_getElem? _ _ (by show j < s.dots.length; omega)]
    simp [strictEq, hne]

/-- Witness of C3: three slides, jump to the last one. -/
theorem goToSlide_sets_index_and_dots_witness :
    (goToSlide (new 3 noOptions) (some 2)).currentIndex = some 2 ∧
    (goToSlide (new 3 noOptions) (some 2)).dots.length = 3 ∧
    (goToSlide (new 3 noOptions) (some 2)).dots[2]? = some true ∧
    ∀ j : Nat, j < 3 → (j : Int) ≠ 2 →
      (goToSlide (new 3 noOptions) (some 2)).dots[j]? = some false :=
  goToSlide_sets_index_and_dots (new 3 noOptions) 2 (by decide) (by decide) (by decide)

/-- C5: `handleSwipe(startX, endX)` is exactly one `nextSlide` when
startX - endX > 50, exactly one `previousSlide` when endX - startX > 50, and
leaves the slider unchanged when |startX - endX| <= 50; a displacement of
exactly 50 does not navigate and one of 51 does. -/
theorem handleSwipe_threshold (s : Slider) (startX endX : Int) :
    (startX - endX > 50 → handleSwipe s startX endX = nextSlide s) ∧
    (endX - startX > 50 → handleSwipe s startX endX = previousSlide s) ∧
    (|startX - endX| ≤ 50 → handleSwipe s startX endX = s) ∧
    handleSwipe s (endX + 50) endX = s ∧
    handleSwipe s endX (endX + 50) = s ∧
    handleSwipe s (endX + 51) endX = nextSlide s ∧
    handleSwipe s endX (endX + 51) = previousSlide s := by
  have key : ∀ a b : Int,
      (a - b > 50 → handleSwipe s a b = nextSlide s) ∧
      (b - a > 50 → handleSwipe s a b = previousSlide s) ∧
      (|a - b| ≤ 50 → handleSwipe s a b = s) := by
    intro a b
    refine ⟨?_, ?_, ?_⟩
    · intro h
      have habs : |a - b| > 50 := lt_of_lt_of_le h (le_abs_self _)
      have hpos : a - b > 0 := by omega
      simp [handleSwipe, habs, hpos]
    · intro h
      have habs : |a - b| > 50 := by
        have := neg_le_abs (a - b)
        omega
      have hneg : ¬ (a - b > 0) := by omega
      simp only [handleSwipe, habs, hneg, if_true, if_false]
    · intro h
      have habs : ¬ (|a - b| > 50) := not_lt.mpr h
      simp only [handleSwipe, habs, if_false]
  refine ⟨(key startX endX).1, (key startX endX).2.1, (key startX endX).2.2, ?_, ?_, ?_, ?_⟩
  · exact (key (endX + 50) endX).2.2 (by simp)
  · exact (key endX (endX + 50)).2.2 (by simp)
  · exact (key (endX + 51) endX).1 (by omega)
  · exact (key endX (endX + 51)).2.1 (by omega)

/-- Witness of C5: the swipes 300 to 200, 200 to 300 and 300 to 250 on three
slides. -/
theorem handleSwipe_threshold_witness :
    ((300 : Int) - 200 > 50 ∧
      handleSwipe (new 3 noOptions) 300 200 = nextSlide (new 3 noOptions)) ∧
    ((300 : Int) - 200 > 50 ∧
      handleSwipe (new 3 noOptions) 200 300 = previousSlide (new 3 noOptions)) ∧
    (|(300 : Int) - 250| ≤ 50 ∧ handleSwipe (new 3 noOptions) 300 250 = new 3 noOptions) :=
  ⟨⟨by decide, (handleSwipe_threshold (new 3 noOptions) 300 200).1 (by decide)⟩,
   ⟨by decide, (handleSwipe_threshold (new 3 noOptions) 200 300).2.1 (by decide)⟩,
   ⟨by decide, (handleSwipe_threshold (new 3 noOptions) 300 250).2.2.1 (by decide)⟩⟩

/-! ## The configuration -/

/-- C10 (amended): the constructed config uses a supplied `autoSlide` or
`pauseOnHover` boolean as given and a supplied `interval` number as given
unless it is 0 or NaN; an omitted option gets its default (true, 4000, true),
and so does a supplied `interval` of 0 or NaN. -/
theorem config_from_options (N : Nat) (o : Options) :
    (∀ b : Bool, o.autoSlide = some b → (new N o).config.autoSlide = b) ∧
    (o.autoSlide = none → (new N o).config.autoSlide = true) ∧
    (∀ b : Bool, o.pauseOnHover = some b → (new N o).config.pauseOnHover = b) ∧
    (o.pauseOnHover = none → (new N o).config.pauseOnHover = true) ∧
    (∀ v : Int, o.interval = some (some v) → v ≠ 0 → (new N o).config.interval = v) ∧
    (o.interval = none → (new N o).config.interval = 4000) ∧
    (o.interval = some (some 0) → (new N o).config.interval = 4000) ∧
    (o.interval = some none → (new N o).config.interval = 4000) := by
  rw [new_config]
  refine ⟨?_, ?_, ?_, ?_, ?_, ?_, ?_, ?_⟩
  · intro b hb; cases b <;> simp [mkConfig, hb]
  · intro hb; simp [mkConfig, hb]
  · intro b hb; cases b <;> simp [mkConfig, hb]
  · intro hb; simp [mkConfig, hb]
  · intro v hv hne; simp [mkConfig, hv, hne]
  · intro hv; simp [mkConfig, hv]
  · intro hv; simp [mkConfig, hv]
  · intro hv; simp [mkConfig, hv]

/-- Witness of C10 (amended): `autoSlide: false, interval: 5000`, and
`interval: NaN`. -/
theorem config_from_options_witness :
    (manualOptions.autoSlide = some false ∧ manualOptions.interval = some (some 5000) ∧
      (5000 : Int) ≠ 0 ∧ manualOptions.pauseOnHover = none ∧
      nanIntervalOptions.interval = some none) ∧
    (new 3 manualOptions).config.autoSlide = false ∧
    (new 3 manualOptions).config.interval = 5000 ∧
    (new 3 manualOptions).config.pauseOnHover = true ∧
    (new 3 nanIntervalOptions).config.interval = 4000 :=
  ⟨⟨rfl, rfl, by decide, rfl, rfl⟩,
   (config_from_options 3 manualOptions).1 false rfl,
   (config_from_options 3 manualOptions).2.2.2.2.1 5000 rfl (by decide),
   (config_from_options 3 manualOptions).2.2.2.1 rfl,
   (config_from_options 3 nanIntervalOptions).2.2.2.2.2.2.2 rfl⟩

/-- Counterexample to C10: a supplied `interval` of 0 is not used as given, the
config gets 4000. -/
theorem interval_zero_not_used :
    zeroIntervalOptions.interval = some (some 0) ∧
    (new 3 zeroIntervalOptions).config.interval = 4000 ∧
    (new 3 zeroIntervalOptions).config.interval ≠ 0 := by
  decide

/-! ## The active dot -/

theorem navInvariant_congr (s t : Slider) (h1 : t.totalSlides = s.totalSlides)
    (h2 : t.currentIndex = s.currentIndex) (h3 : t.dots = s.dots) (h : NavInvariant s) :
    NavInvariant t := by
  unfold NavInvariant
  rw [h1, h2, h3]
  exact h

theorem navInvariant_updateSlider (s : Slider) (k : Int) (h0 : 0 ≤ k)
    (hk : k < (s.totalSlides : Int)) (hcur : s.currentIndex = some k)
    (hd : s.dots.length = s.totalSlides) : NavInvariant (updateSlider s) := by
  refine ⟨k.toNat, ?_, ?_, ?_, ?_⟩
  · show k.toNat < s.totalSlides; omega
  · show s.currentIndex = _; rw [hcur, Int.toNat_of_nonneg h0]
  · rw [updateSlider_dots_length]; exact hd
  · intro j
    by_cases hj : j < s.dots.length
    · rw [updateSlider_dots_getElem? s j hj, hcur]
      simp only [strictEq, Option.some.injEq, decide_eq_true_eq]
      omega
    · have hnone : (updateSlider s).dots[j]? = none := by
        rw [List.getElem?_eq_none_iff, updateSlider_dots_length]; omega
      rw [hnone]
      constructor
      · intro h; cases h
      · intro h; omega

theorem navInvariant_render (s : Slider) (k : Int) (h0 : 0 ≤ k)
    (hk : k < (s.totalSlides : Int)) (hcur : s.currentIndex = some k)
    (hd : s.dots.length = s.totalSlides) :
    NavInvariant (resetAutoSlide (updateSlider s)) :=
  navInvariant_congr (updateSlider s) _ (by simp) (by simp) (by simp)
    (navInvariant_updateSlider s k h0 hk hcur hd)

theorem navInvariant_indexValid (s : Slider) (h : NavInvariant s) : IndexValid s := by
  obtain ⟨i, hi, hcur, _⟩ := h
  exact ⟨i, hcur, by omega, by omega⟩

theorem navInvariant_step (s : Slider) (a : Action) (hN : 1 ≤ s.totalSlides)
    (ha : navInRange s.totalSlides a = true) (h : NavInvariant s) :
    NavInvariant (step s a) ∧ (step s a).totalSlides = s.totalSlides := by
  have hd : s.dots.length = s.totalSlides := by
    obtain ⟨_, _, _, hd, _⟩ := h; exact hd
  cases a with
  | nextSlide =>
    obtain ⟨k, hk, hk0, hk1⟩ := nextSlide_indexValid s hN (navInvariant_indexValid s h)
    rw [nextSlide_currentIndex] at hk
    rw [nextSlide_totalSlides] at hk1
    exact ⟨navInvariant_render _ k hk0 (by show k < (s.totalSlides : Int); omega) hk hd,
      nextSlide_totalSlides s⟩
  | previousSlide =>
    obtain ⟨k, hk, hk0, hk1⟩ := previousSlide_indexValid s hN (navInvariant_indexValid s h)
    rw [previousSlide_currentIndex] at hk
    rw [previousSlide_totalSlides] at hk1
    exact ⟨navInvariant_render _ k hk0 (by show k < (s.totalSlides : Int); omega) hk hd,
      previousSlide_totalSlides s⟩
  | goToSlide index =>
    cases index with
    | none => simp [navInRange] at ha
    | some k =>
      simp only [navInRange, Bool.and_eq_true, decide_eq_true_eq] at ha
      exact ⟨navInvariant_render _ k ha.1 ha.2 rfl hd, goToSlide_totalSlides s _⟩
  | startAutoSlide => simp [navInRange] at ha
  | stopAutoSlide => simp [navInRange] at ha
  | destroy => simp [navInRange] at ha
  | dispatch target type e => simp [navInRange] at ha
  | tick id => simp [navInRange] at ha
  | elapse dt => simp [navInRange] at ha

theorem navInvariant_trace (as : List Action) (s : Slider) (hN : 1 ≤ s.totalSlides)
    (has : ∀ a ∈ as, navInRange s.totalSlides a = true) (h : NavInvariant s) :
    ∀ x ∈ trace s as, NavInvariant x := by
  induction as generalizing s with
  | nil => intro x hx; simp [trace] at hx
  | cons a as ih =>
    have hstep := navInvariant_step s a hN (has a (List.mem_cons_self a as)) h
    intro x hx
    simp only [trace, List.mem_cons] at hx
    rcases hx with hx | hx
    · rw [hx]; exact hstep.1
    · exact ih (step s a) (by rw [hstep.2]; exact hN)
        (fun b hb => by rw [hstep.2]; exact has b (List.mem_cons_of_mem a hb)) hstep.1 x hx

theorem createDots_dots_length (s : Slider) : (createDots s).dots.length = s.totalSlides := by
  have h := (createDots_loop (List.range s.totalSlides) { s with dots := [] }).2.2.2.2.2.2.1
  unfold createDots
  rw [h]; simp

theorem navInvariant_new (N : Nat) (options : Options) (hN : 1 ≤ N) :
    NavInvariant (new N options) := by
  let s0 : Slider := beforeInit N options
  have ha := attachEventListeners_fields (createDots s0)
  have hc := createDots_loop (List.range s0.totalSlides) { s0 with dots := [] }
  have hrender : NavInvariant (updateSlider (attachEventListeners (createDots s0))) := by
    apply navInvariant_updateSlider _ 0 (le_refl 0)
    · rw [ha.1]; show ((List.range s0.totalSlides).foldl createDot _).totalSlides > (0 : Int)
      rw [hc.1]; show (0 : Int) < (N : Int); omega
    · rw [ha.2.1]; exact hc.2.1
    · rw [ha.2.2.2.2.2.2, ha.1, createDots_dots_length]; exact hc.1.symm
  show NavInvariant (init s0)
  unfold init
  simp only []
  split
  · exact navInvariant_congr _ _ (by simp) (by simp) (by simp) hrender
  · exact hrender

/-- C4 (amended): for N >= 1 slides, in every state reached from the constructed
slider by calls of `nextSlide`, `previousSlide` and `goToSlide(i)` with
0 <= i < N, the index is valid and exactly one dot is active, the one at the
index. -/
theorem one_active_dot_at_index (N : Nat) (options : Options) (as : List Action)
    (hN : 1 ≤ N) (has : ∀ a ∈ as, navInRange N a = true) :
    NavInvariant (new N options) ∧ ∀ x ∈ trace (new N options) as, NavInvariant x :=
  ⟨navInvariant_new N options hN,
   navInvariant_trace as (new N options) (by rw [new_totalSlides]; exact hN)
     (by rw [new_totalSlides]; exact has) (navInvariant_new N options hN)⟩

/-- Witness of C4 (amended): three slides; forward, jump to 2, back. -/
theorem one_active_dot_at_index_witness :
    (1 ≤ 3 ∧ ∀ a ∈ [Action.nextSlide, Action.goToSlide (some 2), Action.previousSlide],
      navInRange 3 a = true) ∧
    (NavInvariant (new 3 noOptions) ∧
     ∀ x ∈ trace (new 3 noOptions)
        [Action.nextSlide, Action.goToSlide (some 2), Action.previousSlide],
       NavInvariant x) :=
  ⟨⟨by decide, by decide⟩,
   one_active_dot_at_index 3 noOptions
     [Action.nextSlide, Action.goToSlide (some 2), Action.previousSlide]
     (by decide) (by decide)⟩

/-- Counterexample to C4: on three slides `goToSlide(5)` is a call of a public
navigation operation, and after it the index is 5, no dot is active, and the
invariant fails. -/
theorem goToSlide_out_of_range_breaks_invariant :
    (run (new 3 noOptions) [Action.goToSlide (some 5)]).totalSlides = 3 ∧
    (run (new 3 noOptions) [Action.goToSlide (some 5)]).currentIndex = some 5 ∧
    (run (new 3 noOptions) [Action.goToSlide (some 5)]).dots = [false, false, false] ∧
    ¬ NavInvariant (run (new 3 noOptions) [Action.goToSlide (some 5)]) := by
  refine ⟨by decide, by decide, by decide, ?_⟩
  rintro ⟨i, hi, hcur, _⟩
  have h5 : (run (new 3 noOptions) [Action.goToSlide (some 5)]).currentIndex = some 5 := by
    decide
  have h3 : (run (new 3 noOptions) [Action.goToSlide (some 5)]).totalSlides = 3 := by
    decide
  rw [h5] at hcur
  rw [h3] at hi
  simp only [Option.some.injEq] at hcur
  omega

/-! ## The timer discipline -/

@[simp]
theorem stopAutoSlide_nextTimerId (s : Slider) :
    (stopAutoSlide s).nextTimerId = s.nextTimerId := by
  unfold stopAutoSlide; split <;> [split; skip] <;> rfl

theorem timerInv_congr (s t : Slider) (h1 : t.nextTimerId = s.nextTimerId)
    (h2 : t.autoSlideTimer = s.autoSlideTimer) (h3 : t.timers = s.timers)
    (h : TimerInv s) : TimerInv t := by
  unfold TimerInv
  rw [h1, h2, h3]
  exact h

theorem stopAutoSlide_of_timerInv (s : Slider) (h : TimerInv s) :
    (stopAutoSlide s).autoSlideTimer = none ∧ (stopAutoSlide s).timers = [] := by
  rcases h.2 with ⟨hn, ht⟩ | ⟨t, hs, ht, h1, _⟩
  · simp [stopAutoSlide, hn, ht]
  · have hne : t.id ≠ 0 := by omega
    simp [stopAutoSlide, hs, hne, clearInterval, ht]

theorem startAutoSlide_of_timerInv (s : Slider) (h : TimerInv s) :
    (startAutoSlide s).timers
      = [{ id := s.nextTimerId, delay := s.config.interval, elapsed := 0 }] ∧
    (startAutoSlide s).autoSlideTimer = some s.nextTimerId ∧
    (startAutoSlide s).nextTimerId = s.nextTimerId + 1 := by
  obtain ⟨_, ht⟩ := stopAutoSlide_of_timerInv s h
  simp [startAutoSlide, setInterval, ht]

theorem timerInv_stopAutoSlide (s : Slider) (h : TimerInv s) : TimerInv (stopAutoSlide s) := by
  obtain ⟨hn, ht⟩ := stopAutoSlide_of_timerInv s h
  exact ⟨by rw [stopAutoSlide_nextTimerId]; exact h.1, Or.inl ⟨hn, ht⟩⟩

theorem timerInv_startAutoSlide (s : Slider) (h : TimerInv s) :
    TimerInv (startAutoSlide s) := by
  obtain ⟨ht, hn, hid⟩ := startAutoSlide_of_timerInv s h
  have h1 := h.1
  refine ⟨by omega, Or.inr ⟨_, ?_, ht, ?_, ?_⟩⟩
  · exact hn
  · exact h1
  · show s.nextTimerId < (startAutoSlide s).nextTimerId
    omega

theorem timerInv_resetAutoSlide (s : Slider) (h : TimerInv s) :
    TimerInv (resetAutoSlide s) := by
  unfold resetAutoSlide
  split
  · exact timerInv_startAutoSlide s h
  · exact h

theorem timerInv_nextSlide (s : Slider) (h : TimerInv s) : TimerInv (nextSlide s) :=
  timerInv_resetAutoSlide _ (timerInv_congr s _ rfl rfl rfl h)

theorem timerInv_previousSlide (s : Slider) (h : TimerInv s) : TimerInv (previousSlide s) :=
  timerInv_resetAutoSlide _ (timerInv_congr s _ rfl rfl rfl h)

theorem timerInv_goToSlide (s : Slider) (index : Num) (h : TimerInv s) :
    TimerInv (goToSlide s index) :=
  timerInv_resetAutoSlide _ (timerInv_congr s _ rfl rfl rfl h)

theorem timerInv_handleSwipe (s : Slider) (a b : Int) (h : TimerInv s) :
    TimerInv (handleSwipe s a b) := by
  unfold handleSwipe
  simp only []
  split
  · split
    · exact timerInv_nextSlide s h
    · exact timerInv_previousSlide s h
  · exact h

theorem timerInv_runHandler (s : Slider) (hd : Handler) (e : EventData) (h : TimerInv s) :
    TimerInv (runHandler s hd e) := by
  cases hd with
  | dotClick index => exact timerInv_goToSlide s _ h
  | prevClick => exact timerInv_previousSlide s h
  | nextClick => exact timerInv_nextSlide s h
  | keydown =>
    simp only [runHandler]
    have h1 : TimerInv (if e.key = "ArrowLeft" then previousSlide s else s) := by
      split
      · exact timerInv_previousSlide s h
      · exact h
    split
    · exact timerInv_nextSlide _ h1
    · exact h1
  | mouseenter => exact timerInv_stopAutoSlide s h
  | mouseleave =>
    simp only [runHandler]
    split
    · exact timerInv_startAutoSlide s h
    · exact h
  | touchstart => exact timerInv_congr s _ rfl rfl rfl h
  | touchend => exact timerInv_handleSwipe _ _ _ (timerInv_congr s _ rfl rfl rfl h)

/-- A property that holds before an event and that every handler registered
in the state keeps, holds after the event. -/
theorem dispatch_induction (P : Slider → Prop) (s : Slider) (target : Target)
    (type : EventType) (e : EventData) (h0 : P s)
    (hstep : ∀ acc : Slider, ∀ l ∈ s.listeners, l.target = target → l.type = type →
      P acc → P (runHandler acc l.handler e)) :
    P (dispatch s target type e) := by
  unfold dispatch
  have hmem : ∀ l ∈ s.listeners.filter
      (fun l => decide (l.target = target) && decide (l.type = type)),
      l ∈ s.listeners ∧ l.target = target ∧ l.type = type := by
    intro l hl
    simpa using hl
  generalize s.listeners.filter
    (fun l => decide (l.target = target) && decide (l.type = type)) = ls at hmem
  have key : ∀ acc : Slider, P acc →
      P (ls.foldl (fun acc l => runHandler acc l.handler e) acc) := by
    induction ls with
    | nil => intro acc hacc; exact hacc
    | cons l ls ih =>
      intro acc hacc
      have hl := hmem l (List.mem_cons_self l ls)
      exact ih (fun x hx => hmem x (List.mem_cons_of_mem l hx)) _
        (hstep acc l hl.1 hl.2.1 hl.2.2 hacc)
  exact key s h0

theorem timerInv_dispatch (s : Slider) (target : Target) (type : EventType) (e : EventData)
    (h : TimerInv s) : TimerInv (dispatch s target type e) :=
  dispatch_induction TimerInv s target type e h
    (fun acc l _ _ _ hacc => timerInv_runHandler acc l.handler e hacc)

theorem timerInv_map (s : Slider) (f : Timer → Timer) (hf : ∀ t, (f t).id = t.id)
    (h : TimerInv s) : TimerInv { s with timers := s.timers.map f } := by
  refine ⟨h.1, ?_⟩
  rcases h.2 with ⟨hn, ht⟩ | ⟨t, hs, ht, h1, h2⟩
  · exact Or.inl ⟨hn, by show s.timers.map f = []; rw [ht]; rfl⟩
  · refine Or.inr ⟨f t, ?_, ?_, ?_, ?_⟩
    · show s.autoSlideTimer = some (f t).id; rw [hf]; exact hs
    · show s.timers.map f = [f t]; rw [ht]; rfl
    · rw [hf]; exact h1
    · rw [hf]; exact h2

theorem timerInv_tick (s : Slider) (id : Nat) (h : TimerInv s) : TimerInv (tick s id) := by
  unfold tick
  split
  · apply timerInv_nextSlide
    apply timerInv_map s _ _ h
    intro t
    split <;> rfl
  · exact h

theorem timerInv_elapse (s : Slider) (dt : Nat) (h : TimerInv s) : TimerInv (elapse s dt) :=
  timerInv_map s _ (fun _ => rfl) h

theorem timerInv_destroy (s : Slider) (h : TimerInv s) : TimerInv (destroy s) :=
  timerInv_congr (stopAutoSlide s) _ rfl rfl rfl (timerInv_stopAutoSlide s h)

theorem timerInv_step (s : Slider) (a : Action) (h : TimerInv s) : TimerInv (step s a) := by
  cases a with
  | nextSlide => exact timerInv_nextSlide s h
  | previousSlide => exact timerInv_previousSlide s h
  | goToSlide index => exact timerInv_goToSlide s index h
  | startAutoSlide => exact timerInv_startAutoSlide s h
  | stopAutoSlide => exact timerInv_stopAutoSlide s h
  | destroy => exact timerInv_destroy s h
  | dispatch target type e => exact timerInv_dispatch s target type e h
  | tick id => exact timerInv_tick s id h
  | elapse dt => exact timerInv_elapse s dt h

theorem timerInv_run (as : List Action) (s : Slider) (h : TimerInv s) :
    TimerInv (run s as) := by
  induction as generalizing s with
  | nil => exact h
  | cons a as ih => exact ih (step s a) (timerInv_step s a h)

theorem timerInv_new (N : Nat) (options : Options) : TimerInv (new N options) := by
  have ha := attachEventListeners_fields (createDots (beforeInit N options))
  have hc := createDots_loop (List.range (beforeInit N options).totalSlides)
    { beforeInit N options with dots := [] }
  have hrender : TimerInv (updateSlider (attachEventListeners
      (createDots (beforeInit N options)))) := by
    refine ⟨?_, Or.inl ⟨?_, ?_⟩⟩
    · show 1 ≤ (attachEventListeners (createDots (beforeInit N options))).nextTimerId
      rw [ha.2.2.2.2.2.1]
      exact le_of_eq hc.2.2.2.2.2.1.symm
    · show (attachEventListeners (createDots (beforeInit N options))).autoSlideTimer = none
      rw [ha.2.2.2.1]
      exact hc.2.2.2.1
    · show (attachEventListeners (createDots (beforeInit N options))).timers = []
      rw [ha.2.2.2.2.1]
      exact hc.2.2.2.2.1
  show TimerInv (init (beforeInit N options))
  unfold init
  simp only []
  split
  · exact timerInv_startAutoSlide _ hrender
  · exact hrender

theorem timerInv_ids (s : Slider) (h : TimerInv s) :
    s.timers.length ≤ 1 ∧ s.timers.map Timer.id = s.autoSlideTimer.toList ∧
    ∀ t ∈ s.timers, t.id < s.nextTimerId := by
  rcases h.2 with ⟨hn, ht⟩ | ⟨t, hs, ht, _, h2⟩
  · rw [hn, ht]; simp
  · rw [hs, ht]; simp [h2]

theorem resetAutoSlide_of_timerInv (s : Slider) (h : TimerInv s)
    (hauto : s.config.autoSlide = true) :
    (resetAutoSlide s).timers
      = [{ id := s.nextTimerId, delay := s.config.interval, elapsed := 0 }] ∧
    (resetAutoSlide s).autoSlideTimer = some s.nextTimerId := by
  unfold resetAutoSlide
  rw [if_pos hauto]
  exact ⟨(startAutoSlide_of_timerInv s h).1, (startAutoSlide_of_timerInv s h).2.1⟩

/-- C6: in every state reached from the constructed slider through the public
methods and the host events, at most one timer is outstanding and it is the one
whose id `autoSlideTimer` holds; and a navigation call (`nextSlide`,
`previousSlide`, `goToSlide`) made there with `autoSlide` on leaves exactly one
outstanding timer, newly started (a fresh id, the configured interval, nothing
elapsed), the previously outstanding one being cancelled. -/
theorem at_most_one_timer (N : Nat) (options : Options) (as : List Action) :
    (run (new N options) as).timers.length ≤ 1 ∧
    (run (new N options) as).timers.map Timer.id
      = (run (new N options) as).autoSlideTimer.toList ∧
    ((run (new N options) as).config.autoSlide = true →
      ∀ index : Num, ∀ s1 ∈ [nextSlide (run (new N options) as),
          previousSlide (run (new N options) as),
          goToSlide (run (new N options) as) index],
        s1.timers = [{ id := (run (new N options) as).nextTimerId,
                       delay := (run (new N options) as).config.interval,
                       elapsed := 0 }] ∧
        s1.autoSlideTimer = some (run (new N options) as).nextTimerId ∧
        ∀ t ∈ (run (new N options) as).timers, ∀ u ∈ s1.timers, u.id ≠ t.id) := by
  have hinv := timerInv_run as (new N options) (timerInv_new N options)
  generalize run (new N options) as = s at hinv
  obtain ⟨hlen, hids, hlt⟩ := timerInv_ids s hinv
  refine ⟨hlen, hids, ?_⟩
  intro hauto index s1 hs1
  have hall : ∀ x : Slider, x.nextTimerId = s.nextTimerId → x.autoSlideTimer = s.autoSlideTimer →
      x.timers = s.timers → x.config = s.config →
      (resetAutoSlide x).timers = [{ id := s.nextTimerId, delay := s.config.interval,
                                     elapsed := 0 }] ∧
      (resetAutoSlide x).autoSlideTimer = some s.nextTimerId := by
    intro x h1 h2 h3 h4
    have := resetAutoSlide_of_timerInv x (timerInv_congr s x h1 h2 h3 hinv)
      (by rw [h4]; exact hauto)
    rw [h1, h4] at this
    exact this
  have hres : s1.timers = [{ id := s.nextTimerId, delay := s.config.interval, elapsed := 0 }] ∧
      s1.autoSlideTimer = some s.nextTimerId := by
    simp only [List.mem_cons, List.mem_singleton, List.not_mem_nil, or_false] at hs1
    rcases hs1 with h | h | h
    · rw [h]; exact hall _ rfl rfl rfl rfl
    · rw [h]; exact hall _ rfl rfl rfl rfl
    · rw [h]; exact hall _ rfl rfl rfl rfl
  refine ⟨hres.1, hres.2, ?_⟩
  intro t ht u hu
  rw [hres.1, List.mem_singleton] at hu
  have := hlt t ht
  rw [hu]
  show s.nextTimerId ≠ t.id
  omega

/-- Witness of C6: three slides, default options, after a click on the next
button. -/
theorem at_most_one_timer_witness :
    (run (new 3 noOptions) [clickNext]).config.autoSlide = true ∧
    (nextSlide (run (new 3 noOptions) [clickNext])).timers
      = [{ id := 3, delay := 4000, elapsed := 0 }] ∧
    (nextSlide (run (new 3 noOptions) [clickNext])).autoSlideTimer = some 3 :=
  ⟨by decide,
   ((at_most_one_timer 3 noOptions [clickNext]).2.2 (by decide) none
      (nextSlide (run (new 3 noOptions) [clickNext])) (List.mem_cons_self _ _)).1,
   ((at_most_one_timer 3 noOptions [clickNext]).2.2 (by decide) none
      (nextSlide (run (new 3 noOptions) [clickNext])) (List.mem_cons_self _ _)).2.1⟩

/-- C7, refuted by the code: on three slides with default options,
`destroy()` cancels the timer but leaves every listener registered, and a click
on the next button afterwards moves the index from 0 to 1 and starts a new
timer, whose firing moves it on to 2. -/
theorem destroy_leaves_listeners :
    (destroy (new 3 noOptions)).timers = [] ∧
    (destroy (new 3 noOptions)).currentIndex = some 0 ∧
    (destroy (new 3 noOptions)).listeners = (new 3 noOptions).listeners ∧
    (run (destroy (new 3 noOptions)) [clickNext]).currentIndex = some 1 ∧
    (run (destroy (new 3 noOptions)) [clickNext]).timers
      = [{ id := 2, delay := 4000, elapsed := 0 }] ∧
    (run (destroy (new 3 noOptions)) [clickNext, Action.tick 2]).currentIndex = some 2 := by
  decide

/-! ## Frame lemmas: the configuration and the listeners -/

@[simp]
theorem nextSlide_config (s : Slider) : (nextSlide s).config = s.config := by
  simp [nextSlide, updateSlider]

@[simp]
theorem previousSlide_config (s : Slider) : (previousSlide s).config = s.config := by
  simp [previousSlide, updateSlider]

@[simp]
theorem goToSlide_config (s : Slider) (index : Num) :
    (goToSlide s index).config = s.config := by
  simp [goToSlide, updateSlider]

@[simp]
theorem nextSlide_listeners (s : Slider) : (nextSlide s).listeners = s.listeners := by
  simp [nextSlide, updateSlider]

@[simp]
theorem previousSlide_listeners (s : Slider) :
    (previousSlide s).listeners = s.listeners := by
  simp [previousSlide, updateSlider]

@[simp]
theorem goToSlide_listeners (s : Slider) (index : Num) :
    (goToSlide s index).listeners = s.listeners := by
  simp [goToSlide, updateSlider]

@[simp]
theorem nextSlide_startX (s : Slider) : (nextSlide s).startX = s.startX := by
  simp [nextSlide, updateSlider]

@[simp]
theorem previousSlide_startX (s : Slider) : (previousSlide s).startX = s.startX := by
  simp [previousSlide, updateSlider]

theorem handleSwipe_frame (s : Slider) (a b : Int) :
    (handleSwipe s a b).config = s.config ∧ (handleSwipe s a b).listeners = s.listeners := by
  unfold handleSwipe
  simp only []
  split
  · split <;> simp
  · exact ⟨rfl, rfl⟩

theorem runHandler_frame (s : Slider) (h : Handler) (e : EventData) :
    (runHandler s h e).config = s.config ∧ (runHandler s h e).listeners = s.listeners := by
  cases h with
  | dotClick index => simp [runHandler]
  | prevClick => simp [runHandler]
  | nextClick => simp [runHandler]
  | keydown =>
    simp only [runHandler]
    split <;> split <;> simp
  | mouseenter => simp [runHandler]
  | mouseleave =>
    simp only [runHandler]
    split <;> simp
  | touchstart => exact ⟨rfl, rfl⟩
  | touchend => exact handleSwipe_frame _ _ _

theorem dispatch_frame (s : Slider) (target : Target) (type : EventType) (e : EventData) :
    (dispatch s target type e).config = s.config ∧
    (dispatch s target type e).listeners = s.listeners :=
  dispatch_induction (fun acc => acc.config = s.config ∧ acc.listeners = s.listeners)
    s target type e ⟨rfl, rfl⟩
    (fun acc l _ _ _ hacc => by
      have := runHandler_frame acc l.handler e
      exact ⟨this.1.trans hacc.1, this.2.trans hacc.2⟩)

theorem tick_frame (s : Slider) (id : Nat) :
    (tick s id).config = s.config ∧ (tick s id).listeners = s.listeners := by
  unfold tick
  split
  · simp
  · exact ⟨rfl, rfl⟩

theorem step_config (s : Slider) (a : Action) : (step s a).config = s.config := by
  cases a with
  | nextSlide => exact nextSlide_config s
  | previousSlide => exact previousSlide_config s
  | goToSlide index => exact goToSlide_config s index
  | startAutoSlide => exact startAutoSlide_config s
  | stopAutoSlide => exact stopAutoSlide_config s
  | destroy => exact stopAutoSlide_config s
  | dispatch target type e => exact (dispatch_frame s target type e).1
  | tick id => exact (tick_frame s id).1
  | elapse dt => rfl

theorem run_config (as : List Action) (s : Slider) : (run s as).config = s.config := by
  induction as generalizing s with
  | nil => rfl
  | cons a as ih => exact (ih (step s a)).trans (step_config s a)

/-- No action but `destroy()` changes the listeners, and `destroy()` removes at
most listeners of the previous and next buttons. -/
theorem step_listeners (s : Slider) (a : Action) :
    ∃ p : Listener → Bool, (step s a).listeners = s.listeners.filter p ∧
      ∀ l : Listener, l.target ≠ Target.prevBtn → l.target ≠ Target.nextBtn → p l = true := by
  have hsame : ∀ t : Slider, t.listeners = s.listeners →
      ∃ p : Listener → Bool, t.listeners = s.listeners.filter p ∧
        ∀ l : Listener, l.target ≠ Target.prevBtn → l.target ≠ Target.nextBtn →
          p l = true :=
    fun t ht => ⟨fun _ => true, by rw [ht]; simp, fun _ _ _ => rfl⟩
  cases a with
  | nextSlide => exact hsame _ (nextSlide_listeners s)
  | previousSlide => exact hsame _ (previousSlide_listeners s)
  | goToSlide index => exact hsame _ (goToSlide_listeners s index)
  | startAutoSlide => exact hsame _ (startAutoSlide_listeners s)
  | stopAutoSlide => exact hsame _ (stopAutoSlide_listeners s)
  | destroy =>
    refine ⟨fun l =>
      (!(decide (l.target = Target.prevBtn) && decide (l.type = EventType.click) &&
          decide (l.closure = s.nextClosure))) &&
      (!(decide (l.target = Target.nextBtn) && decide (l.type = EventType.click) &&
          decide (l.closure = s.nextClosure + 1))), ?_, ?_⟩
    · simp [step, destroy, removeEventListener, List.filter_filter, Bool.and_comm]
    · intro l h1 h2
      simp [h1, h2]
  | dispatch target type e => exact hsame _ (dispatch_frame s target type e).2
  | tick id => exact hsame _ (tick_frame s id).2
  | elapse dt => exact hsame _ rfl

theorem wired_step (s : Slider) (a : Action) (h : Wired s) : Wired (step s a) := by
  obtain ⟨p, hp, _⟩ := step_listeners s a
  intro l hl
  rw [hp] at hl
  exact h l (List.mem_of_mem_filter hl)

theorem containerListeners_step (s : Slider) (a : Action) (type : EventType) :
    containerListeners (step s a) type = containerListeners s type := by
  obtain ⟨p, hp, hkeep⟩ := step_listeners s a
  unfold containerListeners
  rw [hp, List.filter_filter]
  apply List.filter_congr
  intro l _
  by_cases hc : l.target = Target.container
  · rw [hkeep l (by rw [hc]; decide) (by rw [hc]; decide)]
    simp
  · simp [hc]

theorem hoverWired_step (s : Slider) (a : Action) (h : HoverWired s) :
    HoverWired (step s a) := by
  unfold HoverWired
  rw [containerListeners_step, containerListeners_step]
  exact h

theorem invariants_run (as : List Action) (s : Slider) (h1 : TimerInv s) (h2 : Wired s)
    (h3 : HoverWired s) :
    TimerInv (run s as) ∧ Wired (run s as) ∧ HoverWired (run s as) := by
  induction as generalizing s with
  | nil => exact ⟨h1, h2, h3⟩
  | cons a as ih =>
    exact ih (step s a) (timerInv_step s a h1) (wired_step s a h2) (hoverWired_step s a h3)

/-! ## The listeners of a constructed slider -/

theorem wired_of_isDotListener (l : Listener) (h : isDotListener l) : wired l = true := by
  obtain ⟨k, h1, h2, h3⟩ := h
  simp [wired, h1, h2, h3]

theorem createDots_listeners (N : Nat) (options : Options) :
    ∀ l ∈ (createDots (beforeInit N options)).listeners, isDotListener l := by
  intro l hl
  have hc := (createDots_loop (List.range (beforeInit N options).totalSlides)
    { beforeInit N options with dots := [] }).2.2.2.2.2.2.2 l hl
  rcases hc with h | h
  · simp [beforeInit] at h
  · exact h

theorem new_listeners (N : Nat) (options : Options) :
    (new N options).listeners
      = (attachEventListeners (createDots (beforeInit N options))).listeners := by
  show (init (beforeInit N options)).listeners = _
  unfold init
  simp only []
  split
  · rw [startAutoSlide_listeners]; rfl
  · rfl

theorem wired_addEventListener (s : Slider) (target : Target) (type : EventType)
    (h : Handler) (hs : Wired s)
    (hw : ∀ c : Nat, wired { target := target, type := type, closure := c, handler := h }
      = true) :
    Wired (addEventListener s target type h) := by
  intro l hl
  simp only [addEventListener, List.mem_append, List.mem_singleton] at hl
  rcases hl with hl | hl
  · exact hs l hl
  · rw [hl]; exact hw _

theorem wired_attachEventListeners (s : Slider) (hs : Wired s) :
    Wired (attachEventListeners s) := by
  have h3 := wired_addEventListener _ Target.document EventType.keydown Handler.keydown
    (wired_addEventListener _ Target.nextBtn EventType.click Handler.nextClick
      (wired_addEventListener s Target.prevBtn EventType.click Handler.prevClick hs
        (fun _ => rfl)) (fun _ => rfl)) (fun _ => rfl)
  have htouch : ∀ t : Slider, Wired t → Wired (addTouchSupport t) := by
    intro t ht
    exact wired_addEventListener _ Target.track EventType.touchend Handler.touchend
      (wired_addEventListener _ Target.track EventType.touchstart Handler.touchstart
        (fun l hl => ht l hl) (fun _ => rfl)) (fun _ => rfl)
  unfold attachEventListeners
  simp only []
  split
  · exact htouch _
      (wired_addEventListener _ Target.container EventType.mouseleave Handler.mouseleave
        (wired_addEventListener _ Target.container EventType.mouseenter Handler.mouseenter
          h3 (fun _ => rfl)) (fun _ => rfl))
  · exact htouch _ h3

theorem wired_new (N : Nat) (options : Options) : Wired (new N options) := by
  have hc : Wired (createDots (beforeInit N options)) :=
    fun l hl => wired_of_isDotListener l (createDots_listeners N options l hl)
  intro l hl
  rw [new_listeners] at hl
  exact wired_attachEventListeners _ hc l hl

theorem containerListeners_addEventListener (s : Slider) (target : Target)
    (type : EventType) (h : Handler) (ty : EventType) :
    containerListeners (addEventListener s target type h) ty
      = containerListeners s ty ++
        (if target = Target.container ∧ type = ty then
          [{ target := target, type := type, closure := s.nextClosure, handler := h }]
         else []) := by
  unfold containerListeners
  simp only [addEventListener, List.filter_append]
  congr 1
  by_cases hc : target = Target.container ∧ type = ty
  · rw [if_pos hc]; simp [List.filter, hc.1, hc.2]
  · rw [if_neg hc]
    have : (decide (target = Target.container) && decide (type = ty)) = false := by
      simpa using hc
    simp [List.filter, this]

theorem addEventListener_config (s : Slider) (target : Target) (type : EventType)
    (h : Handler) : (addEventListener s target type h).config = s.config := rfl

theorem containerListeners_addTouchSupport (s : Slider) (ty : EventType) :
    containerListeners (addTouchSupport s) ty = containerListeners s ty := by
  unfold addTouchSupport
  simp only []
  rw [containerListeners_addEventListener, containerListeners_addEventListener]
  have hne : ¬ (Target.track = Target.container) := by decide
  simp only [hne, false_and, if_false, List.append_nil]
  rfl

theorem hoverWired_attachEventListeners (s : Slider)
    (h0 : ∀ ty, containerListeners s ty = []) (hhover : s.config.pauseOnHover = true) :
    HoverWired (attachEventListeners s) := by
  unfold HoverWired attachEventListeners
  simp only [addEventListener_config, hhover, if_true, containerListeners_addTouchSupport,
    containerListeners_addEventListener, h0]
  constructor
  · refine ⟨s.nextClosure + 3, ?_⟩
    simp [addEventListener]
  · refine ⟨s.nextClosure + 4, ?_⟩
    simp [addEventListener]

theorem hoverWired_new (N : Nat) (options : Options)
    (hhover : (mkConfig options).pauseOnHover = true) : HoverWired (new N options) := by
  have hcfg : (createDots (beforeInit N options)).config.pauseOnHover = true := by
    have := (createDots_loop (List.range (beforeInit N options).totalSlides)
      { beforeInit N options with dots := [] }).2.2.1
    unfold createDots
    rw [this]
    exact hhover
  have h0 : ∀ ty, containerListeners (createDots (beforeInit N options)) ty = [] := by
    intro ty
    unfold containerListeners
    rw [List.filter_eq_nil_iff]
    intro l hl
    obtain ⟨k, h1, _, _⟩ := createDots_listeners N options l hl
    simp [h1]
  have h := hoverWired_attachEventListeners _ h0 hcfg
  unfold HoverWired containerListeners at h ⊢
  rw [new_listeners]
  exact h

/-! ## What the registered handlers are -/

theorem wired_handler (l : Listener) (h : wired l = true) :
    (l.target = Target.document → l.type = EventType.keydown →
      l.handler = Handler.keydown) ∧
    (l.target = Target.container → l.type = EventType.mouseenter →
      l.handler = Handler.mouseenter) ∧
    (l.target = Target.container → l.type = EventType.mouseleave →
      l.handler = Handler.mouseleave) ∧
    (l.target = Target.track → l.type = EventType.touchstart →
      l.handler = Handler.touchstart) ∧
    (l.target = Target.track → l.type = EventType.touchend →
      l.handler = Handler.touchend) := by
  obtain ⟨target, type, closure, handler⟩ := l
  refine ⟨?_, ?_, ?_, ?_, ?_⟩ <;>
  · intro h1 h2
    simp only at h1 h2
    subst h1 h2
    cases handler <;> simp [wired] at h ⊢

theorem stopAutoSlide_of_paused (s : Slider) (h : Paused s) : stopAutoSlide s = s := by
  simp [stopAutoSlide, h.1]

/-- A quiet handler keeps the slider paused; the touch start it sees recorded
is the one of `s` or, once the `touchstart` handler has run on the same event,
the position of the event itself. -/
theorem paused_runHandler_quiet (s acc : Slider) (h : Handler) (e : EventData)
    (hq : quietHandler s h e = true) (hp : Paused acc)
    (hx : acc.startX = s.startX ∨ acc.startX = e.clientX) :
    Paused (runHandler acc h e) ∧
    ((runHandler acc h e).startX = s.startX ∨ (runHandler acc h e).startX = e.clientX) := by
  cases h with
  | dotClick index => simp [quietHandler] at hq
  | prevClick => simp [quietHandler] at hq
  | nextClick => simp [quietHandler] at hq
  | keydown =>
    simp only [quietHandler, Bool.and_eq_true, decide_eq_true_eq] at hq
    simp only [runHandler, hq.1, hq.2, if_false]
    exact ⟨hp, hx⟩
  | mouseenter =>
    simp only [runHandler]
    rw [stopAutoSlide_of_paused acc hp]
    exact ⟨hp, hx⟩
  | mouseleave => simp [quietHandler] at hq
  | touchstart => exact ⟨hp, Or.inr rfl⟩
  | touchend =>
    simp only [quietHandler, decide_eq_true_eq] at hq
    have hnot : ¬ (|acc.startX - e.clientX| > 50) := by
      rcases hx with hx | hx
      · rw [hx]; exact not_lt.mpr hq
      · rw [hx]; simp
    simp only [runHandler, handleSwipe, hnot, if_false]
    exact ⟨hp, hx⟩

theorem paused_quiet_step (s : Slider) (a : Action) (hp : Paused s)
    (hq : quiet s a = true) : Paused (step s a) := by
  cases a with
  | nextSlide => simp [quiet] at hq
  | previousSlide => simp [quiet] at hq
  | goToSlide index => simp [quiet] at hq
  | startAutoSlide => simp [quiet] at hq
  | stopAutoSlide => show Paused (stopAutoSlide s); rw [stopAutoSlide_of_paused s hp]; exact hp
  | destroy =>
    show Paused (destroy s)
    unfold destroy
    rw [stopAutoSlide_of_paused s hp]
    exact hp
  | tick id =>
    show Paused (tick s id)
    unfold tick
    rw [hp.2]
    exact hp
  | elapse dt =>
    refine ⟨hp.1, ?_⟩
    show s.timers.map _ = []
    rw [hp.2]; rfl
  | dispatch target type e =>
    simp only [quiet, List.all_eq_true] at hq
    have := dispatch_induction
      (fun acc => Paused acc ∧ (acc.startX = s.startX ∨ acc.startX = e.clientX))
      s target type e ⟨hp, Or.inl rfl⟩
      (fun acc l hl ht hty hacc =>
        paused_runHandler_quiet s acc l.handler e
          (hq l (List.mem_filter.mpr ⟨hl, by simp [ht, hty]⟩)) hacc.1 hacc.2)
    exact this.1

/-! ## Hovering -/

theorem dispatch_mouseenter (s : Slider) (h : HoverWired s) (e : EventData) :
    dispatch s Target.container EventType.mouseenter e = stopAutoSlide s := by
  obtain ⟨c, hc⟩ := h.1
  unfold containerListeners at hc
  unfold dispatch
  rw [hc]
  rfl

theorem dispatch_mouseleave (s : Slider) (h : HoverWired s) (e : EventData) :
    dispatch s Target.container EventType.mouseleave e
      = if s.config.autoSlide then startAutoSlide s else s := by
  obtain ⟨c, hc⟩ := h.2
  unfold containerListeners at hc
  unfold dispatch
  rw [hc]
  rfl

theorem paused_quiet_trace (bs : List Action) (s : Slider) (hp : Paused s)
    (hq : quietFrom s bs = true) :
    (∀ x ∈ trace s bs, Paused x) ∧ Paused (run s bs) := by
  induction bs generalizing s with
  | nil => exact ⟨fun x hx => by simp [trace] at hx, hp⟩
  | cons a bs ih =>
    simp only [quietFrom, Bool.and_eq_true] at hq
    have hstep := paused_quiet_step s a hp hq.1
    obtain ⟨h1, h2⟩ := ih (step s a) hstep hq.2
    refine ⟨?_, h2⟩
    intro x hx
    simp only [trace, List.mem_cons] at hx
    rcases hx with hx | hx
    · rw [hx]; exact hstep
    · exact h1 x hx

theorem mkConfig_flags (options : Options) :
    ((mkConfig options).autoSlide = true ↔ options.autoSlide ≠ some false) ∧
    ((mkConfig options).pauseOnHover = true ↔ options.pauseOnHover ≠ some false) := by
  simp [mkConfig]

/-- C8 (amended): with `pauseOnHover` and `autoSlide` both on, right after the
pointer enters the container no timer is outstanding, and none is in any state
reached from there as long as every action in between is quiet: no call of a
navigation method or of `startAutoSlide`, and no event with a listener that
navigates or starts the timer.  When the pointer leaves, whatever occurred in
between, exactly one timer is outstanding, newly started: a fresh id, the
configured interval, nothing elapsed. -/
theorem hover_pauses_until_navigation (N : Nat) (options : Options) (as bs : List Action)
    (hauto : options.autoSlide ≠ some false) (hhover : options.pauseOnHover ≠ some false) :
    (step (run (new N options) as) hoverEnter).timers = [] ∧
    (quietFrom (step (run (new N options) as) hoverEnter) bs = true →
      ∀ x ∈ trace (step (run (new N options) as) hoverEnter) bs, x.timers = []) ∧
    (step (run (step (run (new N options) as) hoverEnter) bs) hoverLeave).timers
      = [{ id := (run (step (run (new N options) as) hoverEnter) bs).nextTimerId,
           delay := (mkConfig options).interval,
           elapsed := 0 }] ∧
    (step (run (step (run (new N options) as) hoverEnter) bs) hoverLeave).autoSlideTimer
      = some (run (step (run (new N options) as) hoverEnter) bs).nextTimerId ∧
    (∀ t ∈ (run (step (run (new N options) as) hoverEnter) bs).timers,
      t.id < (run (step (run (new N options) as) hoverEnter) bs).nextTimerId) := by
  have hcfgA : (mkConfig options).autoSlide = true := (mkConfig_flags options).1.mpr hauto
  have hcfgH : (mkConfig options).pauseOnHover = true := (mkConfig_flags options).2.mpr hhover
  obtain ⟨hT, hW, hH⟩ := invariants_run as (new N options) (timerInv_new N options)
    (wired_new N options) (hoverWired_new N options hcfgH)
  have hC : (run (new N options) as).config = mkConfig options := by
    rw [run_config, new_config]
  generalize run (new N options) as = s at hT hW hH hC
  have hT1 := timerInv_step s hoverEnter hT
  have hW1 := wired_step s hoverEnter hW
  have hH1 := hoverWired_step s hoverEnter hH
  have hC1 : (step s hoverEnter).config = mkConfig options := by rw [step_config]; exact hC
  have hP1 : Paused (step s hoverEnter) := by
    show Paused (dispatch s Target.container EventType.mouseenter noData)
    rw [dispatch_mouseenter s hH]
    exact stopAutoSlide_of_timerInv s hT
  generalize step s hoverEnter = s1 at hT1 hW1 hH1 hC1 hP1
  have hquiet : quietFrom s1 bs = true → ∀ x ∈ trace s1 bs, x.timers = [] :=
    fun hq x hx => ((paused_quiet_trace bs s1 hP1 hq).1 x hx).2
  obtain ⟨hT2, _, hH2⟩ := invariants_run bs s1 hT1 hW1 hH1
  have hC2 : (run s1 bs).config = mkConfig options := by rw [run_config]; exact hC1
  generalize run s1 bs = s2 at hT2 hH2 hC2
  have hleave : step s2 hoverLeave = startAutoSlide s2 := by
    show dispatch s2 Target.container EventType.mouseleave noData = _
    rw [dispatch_mouseleave s2 hH2, hC2, hcfgA]
    rfl
  obtain ⟨ht, hh, _⟩ := startAutoSlide_of_timerInv s2 hT2
  refine ⟨hP1.2, hquiet, ?_, ?_, (timerInv_ids s2 hT2).2.2⟩
  · rw [hleave, ht, hC2]
  · rw [hleave, hh]

/-- Witness of C8 (amended): three slides, default options.  The pointer enters
after a click; a touch that moves by 30, the Escape key and a click on the
container follow, all quiet, and no timer is outstanding; then the pointer
leaves and timer 3 starts.  With a click on the next button in between, the
pointer leaving starts timer 4, the only one outstanding. -/
theorem hover_pauses_until_navigation_witness :
    (noOptions.autoSlide ≠ some false ∧ noOptions.pauseOnHover ≠ some false ∧
      quietFrom (step (run (new 3 noOptions) [clickNext]) hoverEnter)
        [Action.dispatch Target.track EventType.touchstart { key := "", clientX := 100 },
         Action.dispatch Target.track EventType.touchend { key := "", clientX := 70 },
         Action.dispatch Target.document EventType.keydown { key := "Escape", clientX := 0 },
         Action.dispatch Target.container EventType.click noData]
        = true) ∧
    (step (run (new 3 noOptions) [clickNext]) hoverEnter).timers = [] ∧
    (∀ x ∈ trace (step (run (new 3 noOptions) [clickNext]) hoverEnter)
        [Action.dispatch Target.track EventType.touchstart { key := "", clientX := 100 },
         Action.dispatch Target.track EventType.touchend { key := "", clientX := 70 },
         Action.dispatch Target.document EventType.keydown { key := "Escape", clientX := 0 },
         Action.dispatch Target.container EventType.click noData],
      x.timers = []) ∧
    (step (run (step (run (new 3 noOptions) [clickNext]) hoverEnter)
        [Action.dispatch Target.track EventType.touchstart { key := "", clientX := 100 },
         Action.dispatch Target.track EventType.touchend { key := "", clientX := 70 },
         Action.dispatch Target.document EventType.keydown { key := "Escape", clientX := 0 },
         Action.dispatch Target.container EventType.click noData])
      hoverLeave).timers = [{ id := 3, delay := 4000, elapsed := 0 }] ∧
    (step (run (step (run (new 3 noOptions) [clickNext]) hoverEnter) [clickNext])
      hoverLeave).timers = [{ id := 4, delay := 4000, elapsed := 0 }] :=
  ⟨⟨by decide, by decide, by decide⟩,
   (hover_pauses_until_navigation 3 noOptions [clickNext]
      [Action.dispatch Target.track EventType.touchstart { key := "", clientX := 100 },
       Action.dispatch Target.track EventType.touchend { key := "", clientX := 70 },
       Action.dispatch Target.document EventType.keydown { key := "Escape", clientX := 0 },
       Action.dispatch Target.container EventType.click noData]
      (by decide) (by decide)).1,
   (hover_pauses_until_navigation 3 noOptions [clickNext]
      [Action.dispatch Target.track EventType.touchstart { key := "", clientX := 100 },
       Action.dispatch Target.track EventType.touchend { key := "", clientX := 70 },
       Action.dispatch Target.document EventType.keydown { key := "Escape", clientX := 0 },
       Action.dispatch Target.container EventType.click noData]
      (by decide) (by decide)).2.1 (by decide),
   (hover_pauses_until_navigation 3 noOptions [clickNext]
      [Action.dispatch Target.track EventType.touchstart { key := "", clientX := 100 },
       Action.dispatch Target.track EventType.touchend { key := "", clientX := 70 },
       Action.dispatch Target.document EventType.keydown { key := "Escape", clientX := 0 },
       Action.dispatch Target.container EventType.click noData]
      (by decide) (by decide)).2.2.1,
   (hover_pauses_until_navigation 3 noOptions [clickNext] [clickNext]
      (by decide) (by decide)).2.2.1⟩

/-- Counterexample to C8: three slides, default options (`autoSlide` and
`pauseOnHover` on); the pointer enters, no timer is outstanding; a click on the
next button follows while the pointer is still inside, and a timer is
outstanding again. -/
theorem click_while_hovering_restarts_timer :
    (new 3 noOptions).config.autoSlide = true ∧
    (new 3 noOptions).config.pauseOnHover = true ∧
    (run (new 3 noOptions) [hoverEnter]).timers = [] ∧
    (run (new 3 noOptions) [hoverEnter, clickNext]).timers
      = [{ id := 2, delay := 4000, elapsed := 0 }] ∧
    (run (new 3 noOptions) [hoverEnter, clickNext]).timers ≠ [] := by
  decide

/-! ## Hovering over a slider that does not auto-advance -/

theorem resetAutoSlide_of_manual (s : Slider) (h : s.config.autoSlide = false) :
    resetAutoSlide s = s := by
  simp [resetAutoSlide, h]

theorem paused_resetAutoSlide_manual (s : Slider) (hc : s.config.autoSlide = false)
    (hp : Paused s) : Paused (resetAutoSlide s) := by
  rw [resetAutoSlide_of_manual s hc]; exact hp

theorem paused_congr (s t : Slider) (h1 : t.autoSlideTimer = s.autoSlideTimer)
    (h2 : t.timers = s.timers) (h : Paused s) : Paused t := by
  unfold Paused
  rw [h1, h2]
  exact h

theorem paused_nextSlide_manual (s : Slider) (hc : s.config.autoSlide = false)
    (hp : Paused s) : Paused (nextSlide s) :=
  paused_resetAutoSlide_manual _ hc (paused_congr s _ rfl rfl hp)

theorem paused_previousSlide_manual (s : Slider) (hc : s.config.autoSlide = false)
    (hp : Paused s) : Paused (previousSlide s) :=
  paused_resetAutoSlide_manual _ hc (paused_congr s _ rfl rfl hp)

theorem paused_goToSlide_manual (s : Slider) (index : Num) (hc : s.config.autoSlide = false)
    (hp : Paused s) : Paused (goToSlide s index) :=
  paused_resetAutoSlide_manual _ hc (paused_congr s _ rfl rfl hp)

theorem paused_runHandler_manual (s : Slider) (h : Handler) (e : EventData)
    (hc : s.config.autoSlide = false) (hp : Paused s) : Paused (runHandler s h e) := by
  cases h with
  | dotClick index => exact paused_goToSlide_manual s _ hc hp
  | prevClick => exact paused_previousSlide_manual s hc hp
  | nextClick => exact paused_nextSlide_manual s hc hp
  | keydown =>
    simp only [runHandler]
    have h1 : Paused (if e.key = "ArrowLeft" then previousSlide s else s) ∧
        (if e.key = "ArrowLeft" then previousSlide s else s).config.autoSlide = false := by
      split
      · exact ⟨paused_previousSlide_manual s hc hp, by rw [previousSlide_config]; exact hc⟩
      · exact ⟨hp, hc⟩
    split
    · exact paused_nextSlide_manual _ h1.2 h1.1
    · exact h1.1
  | mouseenter =>
    show Paused (stopAutoSlide s)
    rw [stopAutoSlide_of_paused s hp]; exact hp
  | mouseleave =>
    simp only [runHandler, hc]
    exact hp
  | touchstart => exact paused_congr s _ rfl rfl hp
  | touchend =>
    simp only [runHandler, handleSwipe]
    split
    · split
      · exact paused_nextSlide_manual _ hc (paused_congr s _ rfl rfl hp)
      · exact paused_previousSlide_manual _ hc (paused_congr s _ rfl rfl hp)
    · exact paused_congr s _ rfl rfl hp

theorem paused_step_manual (s : Slider) (a : Action) (hc : s.config.autoSlide = false)
    (hp : Paused s) (ha : a ≠ Action.startAutoSlide) : Paused (step s a) := by
  cases a with
  | nextSlide => exact paused_nextSlide_manual s hc hp
  | previousSlide => exact paused_previousSlide_manual s hc hp
  | goToSlide index => exact paused_goToSlide_manual s index hc hp
  | startAutoSlide => exact absurd rfl ha
  | stopAutoSlide => show Paused (stopAutoSlide s); rw [stopAutoSlide_of_paused s hp]; exact hp
  | destroy =>
    show Paused (destroy s)
    unfold destroy
    rw [stopAutoSlide_of_paused s hp]
    exact hp
  | dispatch target type e =>
    have := dispatch_induction (fun acc => Paused acc ∧ acc.config.autoSlide = false)
      s target type e ⟨hp, hc⟩
      (fun acc l _ _ _ hacc =>
        ⟨paused_runHandler_manual acc l.handler e hacc.2 hacc.1,
         by rw [(runHandler_frame acc l.handler e).1]; exact hacc.2⟩)
    exact this.1
  | tick id =>
    show Paused (tick s id)
    unfold tick
    rw [hp.2]
    exact hp
  | elapse dt =>
    refine ⟨hp.1, ?_⟩
    show s.timers.map _ = []
    rw [hp.2]; rfl

theorem paused_run_manual (as : List Action) (s : Slider) (hc : s.config.autoSlide = false)
    (hp : Paused s) (has : ∀ a ∈ as, a ≠ Action.startAutoSlide) : Paused (run s as) := by
  induction as generalizing s with
  | nil => exact hp
  | cons a as ih =>
    exact ih (step s a) (by rw [step_config]; exact hc)
      (paused_step_manual s a hc hp (has a (List.mem_cons_self a as)))
      (fun b hb => has b (List.mem_cons_of_mem a hb))

theorem paused_new_manual (N : Nat) (options : Options)
    (hc : (mkConfig options).autoSlide = false) : Paused (new N options) := by
  have ha := attachEventListeners_fields (createDots (beforeInit N options))
  have hd := createDots_loop (List.range (beforeInit N options).totalSlides)
    { beforeInit N options with dots := [] }
  have hcfg : (updateSlider (attachEventListeners
      (createDots (beforeInit N options)))).config.autoSlide = false := by
    show (attachEventListeners (createDots (beforeInit N options))).config.autoSlide = false
    rw [ha.2.2.1]
    unfold createDots
    rw [hd.2.2.1]
    exact hc
  show Paused (init (beforeInit N options))
  unfold init
  simp only [hcfg]
  constructor
  · show (attachEventListeners (createDots (beforeInit N options))).autoSlideTimer = none
    rw [ha.2.2.2.1]
    exact hd.2.2.2.1
  · show (attachEventListeners (createDots (beforeInit N options))).timers = []
    rw [ha.2.2.2.2.1]
    exact hd.2.2.2.2.1

theorem wired_run (as : List Action) (s : Slider) (h : Wired s) : Wired (run s as) := by
  induction as generalizing s with
  | nil => exact h
  | cons a as ih => exact ih (step s a) (wired_step s a h)

theorem paused_of_no_timers (s : Slider) (h : TimerInv s) (ht : s.timers = []) : Paused s := by
  rcases h.2 with ⟨hn, _⟩ | ⟨t, _, htt, _, _⟩
  · exact ⟨hn, ht⟩
  · rw [htt] at ht; cases ht

/-- C9 (amended): on a slider constructed with `autoSlide: false`, the pointer
leaving the container changes nothing in any reachable state, and the pointer
entering it changes nothing in any reachable state in which no timer is
outstanding; no timer is outstanding in the states reached without a call of
`startAutoSlide()`. -/
theorem hover_noop_when_manual (N : Nat) (options : Options) (as : List Action)
    (e : EventData) (hauto : options.autoSlide = some false) :
    step (run (new N options) as) (Action.dispatch Target.container EventType.mouseleave e)
      = run (new N options) as ∧
    ((run (new N options) as).timers = [] →
      step (run (new N options) as)
        (Action.dispatch Target.container EventType.mouseenter e)
        = run (new N options) as) ∧
    ((∀ a ∈ as, a ≠ Action.startAutoSlide) →
      (run (new N options) as).timers = [] ∧
      (run (new N options) as).autoSlideTimer = none) := by
  have hcfg : (mkConfig options).autoSlide = false := by simp [mkConfig, hauto]
  have hC : (run (new N options) as).config.autoSlide = false := by
    rw [run_config, new_config]; exact hcfg
  have hT := timerInv_run as (new N options) (timerInv_new N options)
  have hW := wired_run as (new N options) (wired_new N options)
  refine ⟨?_, ?_, ?_⟩
  · exact dispatch_induction (fun acc => acc = run (new N options) as) _ _ _ e rfl
      (fun acc l hl ht hty hacc => by
        rw [hacc, (wired_handler l (hW l hl)).2.2.1 ht hty]
        simp only [runHandler, hC]
        rfl)
  · intro hno
    have hP := paused_of_no_timers _ hT hno
    exact dispatch_induction (fun acc => acc = run (new N options) as) _ _ _ e rfl
      (fun acc l hl ht hty hacc => by
        rw [hacc, (wired_handler l (hW l hl)).2.1 ht hty]
        exact stopAutoSlide_of_paused _ hP)
  · intro has
    have hP := paused_run_manual as (new N options) (by rw [new_config]; exact hcfg)
      (paused_new_manual N options hcfg) has
    exact ⟨hP.2, hP.1⟩

/-- Witness of C9 (amended): three slides, `autoSlide: false`, after a click on
the next button. -/
theorem hover_noop_when_manual_witness :
    (manualOptions.autoSlide = some false ∧
      (run (new 3 manualOptions) [clickNext]).timers = [] ∧
      ∀ a ∈ [clickNext], a ≠ Action.startAutoSlide) ∧
    step (run (new 3 manualOptions) [clickNext]) hoverLeave
      = run (new 3 manualOptions) [clickNext] ∧
    step (run (new 3 manualOptions) [clickNext]) hoverEnter
      = run (new 3 manualOptions) [clickNext] ∧
    (run (new 3 manualOptions) [clickNext]).autoSlideTimer = none :=
  ⟨⟨rfl, by decide, by decide⟩,
   (hover_noop_when_manual 3 manualOptions [clickNext] noData rfl).1,
   (hover_noop_when_manual 3 manualOptions [clickNext] noData rfl).2.1 (by decide),
   ((hover_noop_when_manual 3 manualOptions [clickNext] noData rfl).2.2 (by decide)).2⟩

/-- Counterexample to C9: three slides, `autoSlide: false` (`pauseOnHover` on);
after a call of the public `startAutoSlide()` a timer is outstanding, and the
pointer entering the container cancels it and clears the handle. -/
theorem hover_enter_cancels_started_timer :
    (new 3 manualOptions).config.autoSlide = false ∧
    (new 3 manualOptions).config.pauseOnHover = true ∧
    (run (new 3 manualOptions) [Action.startAutoSlide]).timers
      = [{ id := 1, delay := 5000, elapsed := 0 }] ∧
    (run (new 3 manualOptions) [Action.startAutoSlide]).autoSlideTimer = some 1 ∧
    (step (run (new 3 manualOptions) [Action.startAutoSlide]) hoverEnter).timers = [] ∧
    (step (run (new 3 manualOptions) [Action.startAutoSlide]) hoverEnter).autoSlideTimer
      = none ∧
    step (run (new 3 manualOptions) [Action.startAutoSlide]) hoverEnter
      ≠ run (new 3 manualOptions) [Action.startAutoSlide] := by
  decide

end ImageSlider
